import Mathlib

/-!
# MrsWatson VST3 plugin adapter (source/plugin/PluginVst3.cpp)

A shallow embedding of the VST3 backend as it is built with the VST3 SDK
(`WITH_VST3_SDK` defined): the open sequence, close, the per-block bus
mapping of `_processVst3Audio`, and the settings query.

Conventions of the embedding.

* A C pointer that the code tests against `NULL` is an `Option`; `none` is `NULL`.
  Where the source dereferences a pointer it has not tested, the embedded function
  returns `none` for a null pointer.
* The answers of the external collaborators (file system, library loader, the
  plugin binary behind `IPluginFactory`, `IComponent`, `IAudioProcessor`) are
  fields of an environment record; the code never computes them.
* `int32` bus counts are integers, because the code tests them with `<= 0`.
  In the bus mapping, channel counts, channel offsets, block sizes and buffer
  sizes are naturals: they are array lengths and indices in the source, and an
  offset can only overflow after the call has allocated pointer arrays of 2^31
  slots. In the settings query nothing is allocated, so the `int32` accumulators
  and the conversion of the `uint32` latency to `int` wrap around as in the
  compiled code (`toInt32`); likewise the count of the 64-bit shift that sets a
  silence bit is taken modulo 64.
* The function-local statics of `_processVst3Audio` are an explicit state record.
* Log calls have no effect on the state and are left out.
-/

namespace PluginVst3

/-! ## Data model -/

/-- One audio sample (`Sample32` is `float` in the SDK). Samples are only stored,
copied and compared with zero, never computed with. -/
abbrev Sample32 := Int

/-- Address of an object handed out by an external collaborator. -/
abbrev Handle := Nat

/-- Modelled from the spec: the `BusInfo` record of the VST3 SDK, whose declaration
is not part of the sources. Only the declared channel count of the bus is read. -/
structure BusInfo where
  channelCount : Nat
deriving DecidableEq

/-- What a slot of a per-bus channel pointer array (`Sample32**`) points to. -/
inductive ChannelPtr where
  /-- a slot of a freshly allocated array that no assignment has reached -/
  | unbound
  /-- `inputs->samples[channel]` -/
  | hostInput (channel : Nat)
  /-- `outputs->samples[channel]` -/
  | hostOutput (channel : Nat)
  /-- the static `silentInputBuffer` -/
  | silentInput
  /-- the static `silentOutputBuffer` -/
  | silentOutput
deriving DecidableEq

/-- The `AudioBusBuffers` record of the SDK, as far as the code fills it. -/
structure AudioBusBuffers where
  numChannels : Nat
  silenceFlags : Nat
  channelBuffers32 : Option (List ChannelPtr)
deriving DecidableEq

/-! ## Bus mapping of `_processVst3Audio` -/

/-- Body of the input channel loop (lines 536-542) at channel position `ch`:
the state is the pointer array of the bus and its `silenceFlags` (a `uint64`).
The shift `1ULL << ch` of a 64-bit value takes its count modulo 64, as the compiled
code does, so a position at or beyond 64 sets bit `ch % 64`. -/
def inputChannelStep (numChannels channelOffset : Nat)
    (st : List ChannelPtr × Nat) (ch : Nat) : List ChannelPtr × Nat :=
  if channelOffset + ch < numChannels then
    (st.1.set ch (ChannelPtr.hostInput (channelOffset + ch)), st.2)
  else
    (st.1.set ch ChannelPtr.silentInput, (st.2 ||| (1 <<< (ch % 64))) % 2 ^ 64)

/-- Lines 531-543: `silenceFlags = 0`, a new pointer array of `channelCount` slots,
then the loop `for (ch = 0; ch < channelCount; ch++)`. -/
def inputChannelLoop (numChannels channelOffset channelCount : Nat) :
    List ChannelPtr × Nat :=
  (List.range channelCount).foldl (inputChannelStep numChannels channelOffset)
    (List.replicate channelCount ChannelPtr.unbound, 0)

/-- Body of the input bus loop (lines 529-556) for the answer `info` of
`getBusInfo(kAudio, kInput, busIdx, busInfo)`; `none` is a failed query.
The state is the bus array filled so far and `channelOffset`. -/
def inputBusStep (numChannels : Nat) (st : List AudioBusBuffers × Nat)
    (info : Option BusInfo) : List AudioBusBuffers × Nat :=
  match info with
  | some busInfo =>
    let r := inputChannelLoop numChannels st.2 busInfo.channelCount
    (st.1 ++ [{ numChannels := busInfo.channelCount, silenceFlags := r.2,
                channelBuffers32 := some r.1 }],
     st.2 + busInfo.channelCount)
  | none =>
    (st.1 ++ [{ numChannels := 0, silenceFlags := 0, channelBuffers32 := none }], st.2)

/-- Lines 514 and 528-557: `channelOffset = 0`, then the input bus loop over the
answers of the bus-info queries in ascending bus index. -/
def inputBusLoop (infos : List (Option BusInfo)) (numChannels : Nat) :
    List AudioBusBuffers × Nat :=
  infos.foldl (inputBusStep numChannels) ([], 0)

/-- Body of the output channel loop (lines 581-586) at channel position `ch`. -/
def outputChannelStep (numChannels channelOffset : Nat)
    (ptrs : List ChannelPtr) (ch : Nat) : List ChannelPtr :=
  if channelOffset + ch < numChannels then
    ptrs.set ch (ChannelPtr.hostOutput (channelOffset + ch))
  else
    ptrs.set ch ChannelPtr.silentOutput

/-- Lines 578-587: a new pointer array, then the output channel loop. -/
def outputChannelLoop (numChannels channelOffset channelCount : Nat) : List ChannelPtr :=
  (List.range channelCount).foldl (outputChannelStep numChannels channelOffset)
    (List.replicate channelCount ChannelPtr.unbound)

/-- Body of the output bus loop (lines 574-600). -/
def outputBusStep (numChannels : Nat) (st : List AudioBusBuffers × Nat)
    (info : Option BusInfo) : List AudioBusBuffers × Nat :=
  match info with
  | some busInfo =>
    (st.1 ++ [{ numChannels := busInfo.channelCount, silenceFlags := 0,
                channelBuffers32 :=
                  some (outputChannelLoop numChannels st.2 busInfo.channelCount) }],
     st.2 + busInfo.channelCount)
  | none =>
    (st.1 ++ [{ numChannels := 0, silenceFlags := 0, channelBuffers32 := none }], st.2)

/-- Lines 560 and 573-601: `channelOffset = 0`, then the output bus loop. -/
def outputBusLoop (infos : List (Option BusInfo)) (numChannels : Nat) :
    List AudioBusBuffers × Nat :=
  infos.foldl (outputBusStep numChannels) ([], 0)

/-- Sum of the declared channel counts of the buses whose query succeeded. -/
def declaredChannels (infos : List (Option BusInfo)) : Nat :=
  (infos.map (fun info => match info with
    | some busInfo => busInfo.channelCount
    | none => 0)).sum

/-- Value of `channelOffset` when the iteration `busIdx = k` of the input bus loop
starts: the loop state after the buses before `k`. -/
def inputChannelOffsetAt (infos : List (Option BusInfo)) (numChannels k : Nat) : Nat :=
  (inputBusLoop (infos.take k) numChannels).2

/-- Value of `channelOffset` when the iteration `busIdx = k` of the output bus loop
starts. -/
def outputChannelOffsetAt (infos : List (Option BusInfo)) (numChannels k : Nat) : Nat :=
  (outputBusLoop (infos.take k) numChannels).2

/-! ## Host buffers, static scratch buffers and the processing call -/

/-- Result code of an SDK call (`tresult`). -/
abbrev tresult := Int

/-- The SDK constant `kResultOk`. -/
def kResultOk : tresult := 0

/-- The host container `SampleBuffer` behind a non-null pointer: `samples` is the
array of channel arrays (`none` is `NULL`). -/
structure SampleBuffer where
  numChannels : Nat
  blocksize : Nat
  samples : Option (List (List Sample32))
deriving DecidableEq

/-- The four function-local statics of `_processVst3Audio` (lines 516-517, 562-563). -/
structure SilentBuffers where
  silentInputBuffer : Option (List Sample32)
  silentInputBufferSize : Nat
  silentOutputBuffer : Option (List Sample32)
  silentOutputBufferSize : Nat
deriving DecidableEq

/-- Values of the statics before the first call. -/
def SilentBuffers.init : SilentBuffers :=
  { silentInputBuffer := none, silentInputBufferSize := 0,
    silentOutputBuffer := none, silentOutputBufferSize := 0 }

/-- Lines 519-526 (and 564-571): reallocate and zero the scratch buffer when there
is none or it is smaller than the block. Returns the buffer and its recorded size. -/
def growSilentBuffer (buffer : Option (List Sample32)) (bufferSize requiredSilentSize : Nat) :
    Option (List Sample32) × Nat :=
  if buffer.isNone || decide (bufferSize < requiredSilentSize) then
    (some (List.replicate requiredSilentSize 0), requiredSilentSize)
  else
    (buffer, bufferSize)

/-- The `ProcessData` record handed to the plugin, as far as the code fills it with
anything but constants and `NULL`. -/
structure ProcessData where
  numSamples : Nat
  numInputs : Int
  inputs : List AudioBusBuffers
  numOutputs : Int
  outputs : List AudioBusBuffers
deriving DecidableEq

/-- What one call of the plugin's `process` does: the result code, and for every
output bus, channel position and sample index the value it stores through that
channel pointer (`none`: it leaves the sample as it is). -/
structure ProcessAnswer where
  result : tresult
  written : Nat → Nat → Nat → Option Sample32

/-- The SDK enumeration `BusDirections`. -/
inductive BusDirection where
  | kInput
  | kOutput
deriving DecidableEq

/-- The SDK enumeration `MediaTypes`. -/
inductive MediaType where
  | kAudio
  | kEvent
deriving DecidableEq

/-- The plugin binary during one call of `_processVst3Audio`: the answers of
`component->getBusInfo(kAudio, direction, busIdx, busInfo)` (`none` is a result other
than `kResultOk`), and `process` as an arbitrary function of everything the plugin
can see. -/
structure ProcessEnv where
  getBusInfo : BusDirection → Nat → Option BusInfo
  process : ProcessData → Option SampleBuffer → SampleBuffer → SilentBuffers → ProcessAnswer

/-- The memory the plugin can reach through output channel pointers. -/
structure OutputMemory where
  host : List (List Sample32)
  silent : List Sample32
deriving DecidableEq

/-- Store the plugin's values for one channel into the first `numSamples` samples. -/
def writeBlock (numSamples : Nat) (w : Nat → Option Sample32) (buf : List Sample32) :
    List Sample32 :=
  buf.mapIdx (fun s old => if s < numSamples then (w s).getD old else old)

/-- The plugin writes one channel through the pointer `ptr`. -/
def writeChannel (numSamples : Nat) (w : Nat → Option Sample32) (mem : OutputMemory)
    (ptr : ChannelPtr) : OutputMemory :=
  match ptr with
  | ChannelPtr.hostOutput c =>
    { mem with
      host := mem.host.mapIdx (fun i row => if i = c then writeBlock numSamples w row else row) }
  | ChannelPtr.silentOutput => { mem with silent := writeBlock numSamples w mem.silent }
  | _ => mem

/-- The plugin writes the channels of one bus, from channel position `ch` on. -/
def writeBus (numSamples : Nat) (w : Nat → Nat → Option Sample32) :
    List ChannelPtr → Nat → OutputMemory → OutputMemory
  | [], _, mem => mem
  | p :: ps, ch, mem => writeBus numSamples w ps (ch + 1) (writeChannel numSamples (w ch) mem p)

/-- The plugin writes all output buses, from bus index `busIdx` on. -/
def writeBuses (numSamples : Nat) (w : Nat → Nat → Nat → Option Sample32) :
    List AudioBusBuffers → Nat → OutputMemory → OutputMemory
  | [], _, mem => mem
  | b :: bs, busIdx, mem =>
    writeBuses numSamples w bs (busIdx + 1)
      (match b.channelBuffers32 with
       | some ptrs => writeBus numSamples (w busIdx) ptrs 0 mem
       | none => mem)

/-- Modelled from the spec: `sampleBufferCopyAndMapChannels(destination, source)` of
audio/SampleBuffer.c, which is not part of the sources: a channel-for-channel copy
from host input to host output, clamped to the smaller of the two channel counts. -/
def sampleBufferCopyAndMapChannels (destination source : SampleBuffer) : SampleBuffer :=
  match destination.samples, source.samples with
  | some d, some s =>
    let n := min source.numChannels destination.numChannels
    { destination with
      samples := some (d.mapIdx (fun c row => if c < n then s.getD c row else row)) }
  | _, _ => destination

/-- What `_processVst3Audio` did, in order. -/
inductive ProcessEvent where
  /-- `processor->process(processData)` and its result -/
  | process (data : ProcessData) (result : tresult)
  /-- `sampleBufferCopyAndMapChannels(outputs, inputs)` -/
  | copyAndMapChannels
deriving DecidableEq

/-- State after one call of `_processVst3Audio`. -/
structure ProcessOutcome where
  statics : SilentBuffers
  outputs : Option SampleBuffer
  events : List ProcessEvent
deriving DecidableEq

/-- The guarded pass-through of lines 463-465 (the same statement at 472-474,
502-504 and 613-615). -/
def passThrough (statics : SilentBuffers) (inputs outputs : Option SampleBuffer) :
    ProcessOutcome :=
  match inputs, outputs with
  | some i, some o =>
    if i.samples.isSome && o.samples.isSome then
      { statics := statics, outputs := some (sampleBufferCopyAndMapChannels o i),
        events := [ProcessEvent.copyAndMapChannels] }
    else
      { statics := statics, outputs := outputs, events := [] }
  | _, _ => { statics := statics, outputs := outputs, events := [] }

/-- Some slot of some bus holds a pointer into a host buffer. -/
def bindsHost (buses : List AudioBusBuffers) : Bool :=
  buses.any (fun b => match b.channelBuffers32 with
    | some ptrs => ptrs.any (fun p => match p with
        | ChannelPtr.hostInput _ => true
        | ChannelPtr.hostOutput _ => true
        | _ => false)
    | none => false)

/-- VST3 plugin data structure (lines 54-65). -/
structure PluginVst3DataMembers where
  libraryHandle : Option Handle
  pluginFactory : Option Handle
  pluginInstance : Option Handle
  audioProcessor : Option Handle
  isInitialized : Bool
  inputBusCount : Int
  outputBusCount : Int
  hostApplication : Option Handle
deriving DecidableEq

/-- The values of `PluginType` the backend assigns. -/
inductive PluginType where
  | PLUGIN_TYPE_UNKNOWN
  | PLUGIN_TYPE_EFFECT
  | PLUGIN_TYPE_INSTRUMENT
deriving DecidableEq

/-- The fields of the host's `Plugin` object that the backend reads and writes;
`extraData` is the pointer to the VST3 data (`none` is `NULL`). -/
structure Plugin where
  pluginType : PluginType
  extraData : Option PluginVst3DataMembers
deriving DecidableEq

/-- Lines 515-526 and 561-571: both scratch buffers are grown to the block size
`requiredSilentSize` where needed. -/
def growStatics (statics : SilentBuffers) (requiredSilentSize : Nat) : SilentBuffers :=
  let gi := growSilentBuffer statics.silentInputBuffer statics.silentInputBufferSize
    requiredSilentSize
  let go := growSilentBuffer statics.silentOutputBuffer statics.silentOutputBufferSize
    requiredSilentSize
  { silentInputBuffer := gi.1, silentInputBufferSize := gi.2,
    silentOutputBuffer := go.1, silentOutputBufferSize := go.2 }

/-- The answers of the input bus-info queries of one call, in ascending bus index. -/
def inputBusInfos (env : ProcessEnv) (data : PluginVst3DataMembers) : List (Option BusInfo) :=
  (List.range data.inputBusCount.toNat).map (env.getBusInfo BusDirection.kInput)

/-- The answers of the output bus-info queries of one call, in ascending bus index. -/
def outputBusInfos (env : ProcessEnv) (data : PluginVst3DataMembers) : List (Option BusInfo) :=
  (List.range data.outputBusCount.toNat).map (env.getBusInfo BusDirection.kOutput)

/-- Lines 482-490 and 508-606: the `ProcessData` record assembled for the plugin. -/
def mappedProcessData (env : ProcessEnv) (data : PluginVst3DataMembers)
    (inputs : Option SampleBuffer) (o : SampleBuffer) : ProcessData :=
  { numSamples := o.blocksize,
    numInputs := data.inputBusCount,
    inputs := (inputBusLoop (inputBusInfos env data) ((inputs.map (·.numChannels)).getD 0)).1,
    numOutputs := data.outputBusCount,
    outputs := (outputBusLoop (outputBusInfos env data) o.numChannels).1 }

/-- Lines 492-616: the mapped path, entered with an audio processor, positive bus counts
and a non-null `outputs`. The result is `none` where the source dereferences a null
pointer: `inputs->numChannels` in a successfully queried input bus, or a null `samples`
array when a host channel is bound. -/
def processMapped (env : ProcessEnv) (statics : SilentBuffers) (data : PluginVst3DataMembers)
    (inputs : Option SampleBuffer) (o : SampleBuffer) : Option ProcessOutcome :=
  let statics1 := growStatics statics o.blocksize
  let processData := mappedProcessData env data inputs o
  if (inputs.isNone && (inputBusInfos env data).any (·.isSome))
      || (bindsHost processData.inputs && ((inputs.bind (·.samples)).isNone))
      || (bindsHost processData.outputs && o.samples.isNone) then
    none
  else
    let answer := env.process processData inputs o statics1
    let mem := writeBuses o.blocksize answer.written processData.outputs 0
      { host := o.samples.getD [], silent := statics1.silentOutputBuffer.getD [] }
    let o1 : SampleBuffer := { o with samples := o.samples.map (fun _ => mem.host) }
    let statics2 : SilentBuffers := { statics1 with silentOutputBuffer := some mem.silent }
    let called := ProcessEvent.process processData answer.result
    if answer.result ≠ kResultOk then
      let p := passThrough statics2 inputs (some o1)
      some { p with events := called :: p.events }
    else
      some { statics := statics2, outputs := some o1, events := [called] }

/-- The function `_processVst3Audio` (lines 456-634). The statics are threaded
through explicitly. The result is `none` where the source dereferences a null pointer
(`outputs->blocksize` at line 485, and see `processMapped`). -/
def _processVst3Audio (env : ProcessEnv) (statics : SilentBuffers) (plugin : Plugin)
    (inputs outputs : Option SampleBuffer) : Option ProcessOutcome :=
  match plugin.extraData with
  | none => some (passThrough statics inputs outputs)
  | some data =>
    if !data.isInitialized then
      some (passThrough statics inputs outputs)
    else if data.audioProcessor.isNone then
      some (passThrough statics inputs outputs)
    else
      match outputs with
      | none => none
      | some o =>
        if data.inputBusCount ≤ 0 ∨ data.outputBusCount ≤ 0 then
          some (passThrough statics inputs outputs)
        else
          processMapped env statics data inputs o

/-! ## Open, close and the settings query -/

/-- The part of the SDK record `PClassInfo` that the code reads. -/
structure PClassInfo where
  cid : Nat
  category : String
  name : String
deriving DecidableEq

/-- Calls into the library loader and the plugin binary that acquire, release or
configure something, in the order the code makes them. -/
inductive Vst3Call where
  | getLibraryHandle
  | getPluginFactory
  | closeLibraryHandle
  | createInstance (cid : Nat)
  | initComponent
  | terminateComponent
  | releaseComponent
  | queryAudioProcessor
  | activateBus (direction : BusDirection) (busIdx : Nat)
  | setupProcessing
  | setActive
  | releaseAudioProcessor
  | releaseFactory
deriving DecidableEq

/-- The answers of the external collaborators during one call of `_openVst3Plugin`.
A query that reports something other than `kResultOk` is `none`. -/
structure OpenEnv where
  /-- `fileExists` of the path built from the plugin name (line 242) -/
  fileExistsAtName : Bool
  /-- `fileExists` of `pluginLocation/pluginName.vst3` (line 255) -/
  fileExistsInLocation : Bool
  getLibraryHandleForVst3Plugin : Option Handle
  getVst3PluginFactory : Option Handle
  countClasses : Int
  getClassInfo : Nat → Option PClassInfo
  /-- `factory->createInstance(cid, ...)`: result code and the component written back -/
  createInstance : Nat → tresult × Option Handle
  /-- result of `component->initialize(NULL)` -/
  initComponentResult : tresult
  /-- `component->queryInterface(IAudioProcessor::iid, ...)`: result code and the
  pointer written into `data->audioProcessor` -/
  queryInterface : tresult × Option Handle
  getBusCount : MediaType → BusDirection → Int
  getBusInfo : BusDirection → Nat → Option BusInfo
  setupProcessing : tresult
  setActive : tresult

/-- Result of `_openVst3Plugin`: the returned flag, the plugin object afterwards,
and the calls made. -/
structure OpenResult where
  success : Bool
  plugin : Plugin
  calls : List Vst3Call
deriving DecidableEq

/-- The class loop of lines 307-317 over the class indices still to visit: the index
and info of the first class whose info is retrieved and whose category is
"Audio Module Class"; `none` when the loop ends with `foundAudioModule` false. -/
def findAudioModuleClass (getClassInfo : Nat → Option PClassInfo) :
    List Nat → Option (Nat × PClassInfo)
  | [] => none
  | i :: rest =>
    match getClassInfo i with
    | none => findAudioModuleClass getClassInfo rest
    | some classInfo =>
      if classInfo.category = "Audio Module Class" then some (i, classInfo)
      else findAudioModuleClass getClassInfo rest

/-- Lines 305-326: the class whose `cid` is used; `none` when the fallback query of
class 0 fails. -/
def selectClass (env : OpenEnv) : Option (Nat × PClassInfo) :=
  match findAudioModuleClass env.getClassInfo (List.range env.countClasses.toNat) with
  | some found => some found
  | none =>
    match env.getClassInfo 0 with
    | some classInfo => some (0, classInfo)
    | none => none

/-- One activation loop (lines 362-368 for inputs, 371-377 for outputs): the
`activateBus` calls made. -/
def activateBuses (env : OpenEnv) (direction : BusDirection) (busCount : Int) :
    List Vst3Call :=
  (List.range busCount.toNat).filterMap (fun i =>
    match env.getBusInfo direction i with
    | some _ => some (Vst3Call.activateBus direction i)
    | none => none)

/-- Lines 349-416 of `_openVst3Plugin`: everything after a successful
`component->initialize`. `data` already holds the component. -/
def openInitialized (env : OpenEnv) (plugin : Plugin) (data : PluginVst3DataMembers)
    (calls : List Vst3Call) : OpenResult :=
  let audioProcessor := if env.queryInterface.1 ≠ kResultOk then none else env.queryInterface.2
  let inputBusCount := env.getBusCount MediaType.kAudio BusDirection.kInput
  let outputBusCount := env.getBusCount MediaType.kAudio BusDirection.kOutput
  let setupCalls := if audioProcessor.isSome then [Vst3Call.setupProcessing] else []
  let pluginType :=
    if env.getBusCount MediaType.kEvent BusDirection.kInput > 0 then
      PluginType.PLUGIN_TYPE_INSTRUMENT
    else PluginType.PLUGIN_TYPE_EFFECT
  { success := true,
    plugin :=
      { plugin with
        pluginType := pluginType
        extraData := some { data with
          audioProcessor := audioProcessor
          inputBusCount := inputBusCount
          outputBusCount := outputBusCount
          isInitialized := true } },
    calls := calls ++ [Vst3Call.queryAudioProcessor]
      ++ activateBuses env BusDirection.kInput inputBusCount
      ++ activateBuses env BusDirection.kOutput outputBusCount
      ++ setupCalls ++ [Vst3Call.setActive] }

/-- Lines 293-347 of `_openVst3Plugin`: class selection, component creation and
initialization. `data` already holds the library and the factory. -/
def openWithFactory (env : OpenEnv) (plugin : Plugin) (data : PluginVst3DataMembers)
    (calls : List Vst3Call) : OpenResult :=
  if env.countClasses = 0 then
    { success := false, plugin := { plugin with extraData := some data }, calls := calls }
  else
    match selectClass env with
    | none =>
      { success := false, plugin := { plugin with extraData := some data }, calls := calls }
    | some (_, classInfo) =>
      let created := env.createInstance classInfo.cid
      let calls1 := calls ++ [Vst3Call.createInstance classInfo.cid]
      match created.2 with
      | none =>
        { success := false, plugin := { plugin with extraData := some data }, calls := calls1 }
      | some component =>
        if created.1 ≠ kResultOk then
          { success := false, plugin := { plugin with extraData := some data },
            calls := calls1 }
        else if env.initComponentResult ≠ kResultOk then
          { success := false,
            plugin := { plugin with extraData := some { data with pluginInstance := none } },
            calls := calls1 ++ [Vst3Call.initComponent, Vst3Call.releaseComponent] }
        else
          openInitialized env plugin { data with pluginInstance := some component }
            (calls1 ++ [Vst3Call.initComponent])

/-- The function `_openVst3Plugin` (lines 224-426), SDK build. -/
def _openVst3Plugin (env : OpenEnv) (plugin : Plugin) : OpenResult :=
  match plugin.extraData with
  | none => { success := false, plugin := plugin, calls := [] }
  | some data =>
    if data.isInitialized then
      { success := true, plugin := plugin, calls := [] }
    else if !(env.fileExistsAtName || env.fileExistsInLocation) then
      { success := false, plugin := plugin, calls := [] }
    else
      match env.getLibraryHandleForVst3Plugin with
      | none =>
        { success := false,
          plugin := { plugin with extraData := some { data with libraryHandle := none } },
          calls := [Vst3Call.getLibraryHandle] }
      | some library =>
        match env.getVst3PluginFactory with
        | none =>
          { success := false,
            plugin := { plugin with
              extraData := some { data with libraryHandle := none, pluginFactory := none } },
            calls := [Vst3Call.getLibraryHandle, Vst3Call.getPluginFactory,
              Vst3Call.closeLibraryHandle] }
        | some factory =>
          openWithFactory env plugin
            { data with libraryHandle := some library, pluginFactory := some factory }
            [Vst3Call.getLibraryHandle, Vst3Call.getPluginFactory]

/-- The function `_closeVst3Plugin` (lines 428-454): the plugin object afterwards
(the data is freed and `extraData` is `NULL`) and the release calls made. -/
def _closeVst3Plugin (plugin : Plugin) : Plugin × List Vst3Call :=
  match plugin.extraData with
  | none => (plugin, [])
  | some data =>
    ({ plugin with extraData := none },
     (if data.audioProcessor.isSome then [Vst3Call.releaseAudioProcessor] else [])
       ++ (if data.pluginInstance.isSome then
            [Vst3Call.terminateComponent, Vst3Call.releaseComponent] else [])
       ++ (if data.pluginFactory.isSome then [Vst3Call.releaseFactory] else [])
       ++ (if data.libraryHandle.isSome then [Vst3Call.closeLibraryHandle] else []))

/-- The handles a plugin object holds. -/
def heldHandles (plugin : Plugin) : List Handle :=
  match plugin.extraData with
  | none => []
  | some data =>
    data.audioProcessor.toList ++ data.pluginInstance.toList
      ++ data.pluginFactory.toList ++ data.libraryHandle.toList

/-- The handle a call of `_closeVst3Plugin` gives up, read from the data at entry:
`release()` on the audio processor, the component and the factory, and
`closeVst3LibraryHandle` on the library; `terminate()` gives up nothing. -/
def releasedHandle (data : PluginVst3DataMembers) : Vst3Call → Option Handle
  | Vst3Call.releaseAudioProcessor => data.audioProcessor
  | Vst3Call.releaseComponent => data.pluginInstance
  | Vst3Call.releaseFactory => data.pluginFactory
  | Vst3Call.closeLibraryHandle => data.libraryHandle
  | _ => none

/-- Modelled from the spec: the enumeration `PluginSetting` of plugin/Plugin.h, which is
not part of the sources: the four queries of the settings adapter, and any other value. -/
inductive PluginSetting where
  | PLUGIN_SETTING_TAIL_TIME_IN_MS
  | PLUGIN_NUM_INPUTS
  | PLUGIN_NUM_OUTPUTS
  | PLUGIN_INITIAL_DELAY
  | NUM_PLUGIN_SETTINGS
deriving DecidableEq

/-- The plugin binary during one call of `_getVst3Setting`; `getLatencySamples` is the
`uint32` the processor reports. -/
structure SettingEnv where
  getBusCount : BusDirection → Int
  getBusInfo : BusDirection → Nat → Option BusInfo
  getLatencySamples : Nat

/-- The value a 32-bit signed integer holds after `x` is stored in it: two's
complement wrap-around, as the compiled code does. -/
def toInt32 (x : Int) : Int :=
  (x + 2 ^ 31) % 2 ^ 32 - 2 ^ 31

/-- The counting loops of lines 663-668 and 672-677; the accumulator `numInputs`
(`numOutputs`) is an `int32`. -/
def countChannels (env : SettingEnv) (direction : BusDirection) : Int :=
  (List.range (env.getBusCount direction).toNat).foldl (fun n i =>
    match env.getBusInfo direction i with
    | some busInfo => toInt32 (n + busInfo.channelCount)
    | none => n) 0

/-- The function `_getVst3Setting` (lines 648-708), SDK build. The result is an `int`;
the `uint32` latency is converted to it. -/
def _getVst3Setting (env : SettingEnv) (plugin : Plugin) (setting : PluginSetting) : Int :=
  match plugin.extraData with
  | none => 0
  | some data =>
    if !data.isInitialized then 0
    else if data.pluginInstance.isSome then
      match setting with
      | PluginSetting.PLUGIN_NUM_INPUTS =>
        let numInputs := countChannels env BusDirection.kInput
        if numInputs > 0 then numInputs else 2
      | PluginSetting.PLUGIN_NUM_OUTPUTS =>
        let numOutputs := countChannels env BusDirection.kOutput
        if numOutputs > 0 then numOutputs else 2
      | PluginSetting.PLUGIN_INITIAL_DELAY =>
        if data.audioProcessor.isSome then toInt32 (env.getLatencySamples : Int) else 0
      | PluginSetting.PLUGIN_SETTING_TAIL_TIME_IN_MS => 0
      | PluginSetting.NUM_PLUGIN_SETTINGS => 0
    else
      match setting with
      | PluginSetting.PLUGIN_NUM_INPUTS => 2
      | PluginSetting.PLUGIN_NUM_OUTPUTS => 2
      | PluginSetting.PLUGIN_INITIAL_DELAY => 0
      | PluginSetting.PLUGIN_SETTING_TAIL_TIME_IN_MS => 0
      | PluginSetting.NUM_PLUGIN_SETTINGS => 0

/-- The data that `newPluginVst3` attaches to a new plugin object (lines 744-773). -/
def newPluginVst3Data : PluginVst3DataMembers :=
  { libraryHandle := none, pluginFactory := none, pluginInstance := none,
    audioProcessor := none, isInitialized := false, inputBusCount := 0,
    outputBusCount := 0, hostApplication := none }

/-- The function `newPluginVst3` (lines 734-826): `NULL` when no such plugin exists or
an allocation fails, else a plugin object of unknown type with empty data. -/
def newPluginVst3 (pluginVst3Exists allocated : Bool) : Option Plugin :=
  if !pluginVst3Exists then none
  else if !allocated then none
  else some { pluginType := PluginType.PLUGIN_TYPE_UNKNOWN, extraData := some newPluginVst3Data }

/-- The plugin objects the host can hold between calls: `newPluginVst3` creates them, and
`_openVst3Plugin` and `_closeVst3Plugin` are the only backend functions that change
them (processing and the settings query leave the plugin object as it is). -/
inductive Reachable : Plugin → Prop where
  | create (pluginVst3Exists allocated : Bool) (plugin : Plugin)
      (h : newPluginVst3 pluginVst3Exists allocated = some plugin) : Reachable plugin
  | openPlugin (env : OpenEnv) (plugin : Plugin) (h : Reachable plugin) :
      Reachable (_openVst3Plugin env plugin).plugin
  | closePlugin (plugin : Plugin) (h : Reachable plugin) :
      Reachable (_closeVst3Plugin plugin).1

/-- The handle discipline of the data: a component only with the initialization flag
set, an audio processor only with a component. -/
def handlesConsistent (plugin : Plugin) : Prop :=
  ∀ data, plugin.extraData = some data →
    (data.pluginInstance ≠ none → data.isInitialized = true) ∧
    (data.audioProcessor ≠ none → data.pluginInstance ≠ none)

/-- One call of the host into the backend, with the behaviour of the external
collaborators during that call. -/
inductive HostCall where
  /-- `plugin->openPlugin(plugin)` -/
  | openPlugin (env : OpenEnv)
  /-- `plugin->processAudio(plugin, inputs, outputs)` -/
  | processAudio (env : ProcessEnv) (inputs outputs : Option SampleBuffer)
  /-- `plugin->getSetting(plugin, setting)` -/
  | getSetting (env : SettingEnv) (setting : PluginSetting)
  /-- `plugin->closePlugin(plugin)` -/
  | closePlugin

/-- What persists between calls: the plugin object and the statics of
`_processVst3Audio`. -/
structure HostState where
  plugin : Plugin
  statics : SilentBuffers
deriving DecidableEq

/-- The state after one call. `_processVst3Audio` and `_getVst3Setting` only read the
plugin object; `none` when a processing call dereferences a null pointer. -/
def hostStep (st : HostState) : HostCall → Option HostState
  | HostCall.openPlugin env =>
    some { st with plugin := (_openVst3Plugin env st.plugin).plugin }
  | HostCall.processAudio env inputs outputs =>
    match _processVst3Audio env st.statics st.plugin inputs outputs with
    | some out => some { st with statics := out.statics }
    | none => none
  | HostCall.getSetting _ _ => some st
  | HostCall.closePlugin => some { st with plugin := (_closeVst3Plugin st.plugin).1 }

/-- The state after a sequence of calls. -/
def hostRun (st : HostState) : List HostCall → Option HostState
  | [] => some st
  | c :: rest =>
    match hostStep st c with
    | some st1 => hostRun st1 rest
    | none => none

/-- The host channel a slot points to, if it points into a host buffer. -/
def hostChannel : ChannelPtr → Option Nat
  | ChannelPtr.hostInput c => some c
  | ChannelPtr.hostOutput c => some c
  | _ => none

/-- The host channels bound by the buses of one direction, traversed in ascending bus
index and, within a bus, ascending channel position. -/
def boundHostChannels : List AudioBusBuffers → List Nat
  | [] => []
  | b :: bs =>
    (match b.channelBuffers32 with
     | some ptrs => ptrs.filterMap hostChannel
     | none => []) ++ boundHostChannels bs

/-- The plugin's `process` was invoked during the call. -/
def pluginCalled (events : List ProcessEvent) : Bool :=
  events.any (fun e => match e with
    | ProcessEvent.process _ _ => true
    | ProcessEvent.copyAndMapChannels => false)

/-- One call of `_processVst3Audio`: the plugin binary's behaviour during the call and
the arguments. -/
structure ProcessCall where
  env : ProcessEnv
  plugin : Plugin
  inputs : Option SampleBuffer
  outputs : Option SampleBuffer

/-- The statics after a sequence of calls of `_processVst3Audio`, from the statics
`statics`; `none` when a call dereferences a null pointer. -/
def processCalls (statics : SilentBuffers) : List ProcessCall → Option SilentBuffers
  | [] => some statics
  | c :: rest =>
    match _processVst3Audio c.env statics c.plugin c.inputs c.outputs with
    | none => none
    | some out => processCalls out.statics rest

/-- A scratch buffer, if allocated, holds only zero samples. -/
def onlyZeros (buffer : Option (List Sample32)) : Prop :=
  ∀ samples, buffer = some samples → ∀ x, x ∈ samples → x = 0

/-- Capacity of a scratch buffer: the number of samples allocated for it, and 0 when no
buffer exists yet. -/
def capacity (buffer : Option (List Sample32)) : Nat :=
  match buffer with
  | none => 0
  | some samples => samples.length

/-- The size variables of the statics record the capacities of the buffers. -/
def sizesRecorded (statics : SilentBuffers) : Prop :=
  statics.silentInputBufferSize = capacity statics.silentInputBuffer ∧
  statics.silentOutputBufferSize = capacity statics.silentOutputBuffer

/-- A one-channel host buffer of `n` zero samples per block. -/
def silentBlock (n : Nat) : SampleBuffer :=
  { numChannels := 1, blocksize := n, samples := some [List.replicate n 0] }

/-! ## Concrete instances -/

/-- A plugin binary with one input bus of one channel and one output bus of two channels
whose `process` succeeds and stores the sample 1 everywhere it can. -/
def exampleProcessEnv : ProcessEnv :=
  { getBusInfo := fun direction _ =>
      match direction with
      | BusDirection.kInput => some { channelCount := 1 }
      | BusDirection.kOutput => some { channelCount := 2 },
    process := fun _ _ _ _ => { result := kResultOk, written := fun _ _ _ => some 1 } }

/-- An opened plugin object: all handles held, one input and one output bus recorded. -/
def activePlugin : Plugin :=
  { pluginType := PluginType.PLUGIN_TYPE_EFFECT,
    extraData := some
      { libraryHandle := some 1, pluginFactory := some 2, pluginInstance := some 3,
        audioProcessor := some 4, isInitialized := true, inputBusCount := 1,
        outputBusCount := 1, hostApplication := none } }

/-- A one-channel host buffer holding one block of one sample. -/
def monoBuffer (x : Sample32) : SampleBuffer :=
  { numChannels := 1, blocksize := 1, samples := some [[x]] }

/-- A plugin binary during a settings query: one bus per direction, one input channel,
four output channels, a latency of 64 samples. -/
def exampleSettingEnv : SettingEnv :=
  { getBusCount := fun _ => 1,
    getBusInfo := fun direction _ =>
      match direction with
      | BusDirection.kInput => some { channelCount := 1 }
      | BusDirection.kOutput => some { channelCount := 4 },
    getLatencySamples := 64 }

/-- A plugin binary during a settings query whose values do not fit 32-bit signed
integers: two buses per direction of 2^30 channels each, a latency of 2^32 - 1. -/
def hugeSettingEnv : SettingEnv :=
  { getBusCount := fun _ => 2,
    getBusInfo := fun _ _ => some { channelCount := 2 ^ 30 },
    getLatencySamples := 2 ^ 32 - 1 }

/-- The plugin object right after `newPluginVst3`. -/
def freshPlugin : Plugin :=
  { pluginType := PluginType.PLUGIN_TYPE_UNKNOWN, extraData := some newPluginVst3Data }

/-- An opened plugin object whose plugin lacks the processing capability: the component
is held, the audio processor handle is null. -/
def degradedPlugin : Plugin :=
  { pluginType := PluginType.PLUGIN_TYPE_EFFECT,
    extraData := some
      { libraryHandle := some 1, pluginFactory := some 2, pluginInstance := some 3,
        audioProcessor := none, isInitialized := true, inputBusCount := 1,
        outputBusCount := 1, hostApplication := none } }

/-- The outcome of the first call of `_processVst3Audio` on `activePlugin` with
`exampleProcessEnv`, input block `[5]` and output block `[0]`: the second output channel
is padded and the plugin stores the sample 1 through both output pointers. -/
def exampleOutcome : ProcessOutcome :=
  { statics := { silentInputBuffer := some [0], silentInputBufferSize := 1,
                 silentOutputBuffer := some [1], silentOutputBufferSize := 1 },
    outputs := some (monoBuffer 1),
    events := [ProcessEvent.process
      { numSamples := 1, numInputs := 1,
        inputs := [{ numChannels := 1, silenceFlags := 0,
                     channelBuffers32 := some [ChannelPtr.hostInput 0] }],
        numOutputs := 1,
        outputs := [{ numChannels := 2, silenceFlags := 0,
                      channelBuffers32 :=
                        some [ChannelPtr.hostOutput 0, ChannelPtr.silentOutput] }] }
      kResultOk] }

/-- Class info of an edit controller class. -/
def controllerClassInfo : PClassInfo :=
  { cid := 5, category := "Component Controller Class", name := "GainController" }

/-- Class info of an audio module class. -/
def audioModuleClassInfo : PClassInfo :=
  { cid := 7, category := "Audio Module Class", name := "Gain" }

/-- A factory with two classes: class 0 is an edit controller, class 1 the audio module. -/
def twoClassGetClassInfo (i : Nat) : Option PClassInfo :=
  if i = 0 then some controllerClassInfo else some audioModuleClassInfo

/-- A call on `activePlugin` with `exampleProcessEnv` and one-channel host buffers of
block size `n`. -/
def activeCall (n : Nat) : ProcessCall :=
  { env := exampleProcessEnv, plugin := activePlugin,
    inputs := some (silentBlock n), outputs := some (silentBlock n) }

/-- Answers of the collaborators of an open sequence in which every step succeeds: one
class of category "Audio Module Class", an audio processor, one input bus of one channel
and one output bus of two channels. Also used with single answers changed. -/
def exampleOpenEnv : OpenEnv :=
  { fileExistsAtName := true,
    fileExistsInLocation := false,
    getLibraryHandleForVst3Plugin := some 1,
    getVst3PluginFactory := some 2,
    countClasses := 1,
    getClassInfo := fun _ => some { cid := 7, category := "Audio Module Class", name := "Gain" },
    createInstance := fun _ => (kResultOk, some 3),
    initComponentResult := kResultOk,
    queryInterface := (kResultOk, some 4),
    getBusCount := fun _ _ => 1,
    getBusInfo := fun direction _ =>
      match direction with
      | BusDirection.kInput => some { channelCount := 1 }
      | BusDirection.kOutput => some { channelCount := 2 },
    setupProcessing := kResultOk,
    setActive := kResultOk }

/-! ## Lemmas on the loops -/

/-- A loop whose body appends one element and updates a counter fills exactly one
slot per iteration. -/
theorem foldl_snoc_length {α β : Type} (step : List α × Nat → β → List α × Nat)
    (g : Nat → β → α) (h : Nat → β → Nat)
    (hstep : ∀ st x, step st x = (st.1 ++ [g st.2 x], h st.2 x))
    (l : List β) (st : List α × Nat) :
    (l.foldl step st).1.length = st.1.length + l.length := by
  induction l generalizing st with
  | nil => simp
  | cons x xs ih =>
    rw [List.foldl_cons, ih, hstep]
    simp
    omega

theorem foldl_snoc_getElem {α β : Type} (step : List α × Nat → β → List α × Nat)
    (g : Nat → β → α) (h : Nat → β → Nat)
    (hstep : ∀ st x, step st x = (st.1 ++ [g st.2 x], h st.2 x))
    (o : Nat) (l : List β) (k : Nat) (x : β) (hk : l[k]? = some x) :
    (l.foldl step ([], o)).1[k]? = some (g ((l.take k).foldl step ([], o)).2 x) := by
  induction l using List.reverseRecOn generalizing k x with
  | nil => simp at hk
  | append_singleton l y ih =>
    have hlen := foldl_snoc_length step g h hstep l ([], o)
    simp only [List.length_nil, Nat.zero_add] at hlen
    rw [List.foldl_append, List.foldl_cons, List.foldl_nil, hstep]
    by_cases hlt : k < l.length
    · rw [List.getElem?_append_left (by omega)] at hk
      rw [List.getElem?_append_left (by omega), List.take_append_of_le_length (by omega)]
      exact ih k x hk
    · have hkl : k = l.length := by
        by_contra hne
        have : (l ++ [y])[k]? = none := by
          apply List.getElem?_eq_none
          simp
          omega
        rw [this] at hk
        cases hk
      subst hkl
      simp at hk
      subst hk
      simp [← hlen]

theorem inputChannelLoop_upTo (N off count n : Nat) (hn : n ≤ count) :
    ((List.range n).foldl (inputChannelStep N off)
        (List.replicate count ChannelPtr.unbound, 0)).1.length = count ∧
    (∀ ch, ch < n →
      ((List.range n).foldl (inputChannelStep N off)
        (List.replicate count ChannelPtr.unbound, 0)).1[ch]? =
        some (if off + ch < N then ChannelPtr.hostInput (off + ch)
              else ChannelPtr.silentInput)) ∧
    (∀ b, ((List.range n).foldl (inputChannelStep N off)
        (List.replicate count ChannelPtr.unbound, 0)).2.testBit b = true ↔
        (b < 64 ∧ ∃ ch, ch < n ∧ ch % 64 = b ∧ N ≤ off + ch)) := by
  induction n with
  | zero => simp
  | succ n ih =>
    obtain ⟨hlen, hptr, hbit⟩ := ih (Nat.le_of_succ_le hn)
    rw [List.range_succ, List.foldl_append]
    simp only [List.foldl_cons, List.foldl_nil]
    generalize (List.range n).foldl (inputChannelStep N off)
        (List.replicate count ChannelPtr.unbound, 0) = st at hlen hptr hbit
    unfold inputChannelStep
    by_cases h : off + n < N
    · simp only [h, if_true]
      refine ⟨by simp [hlen], ?_, ?_⟩
      · intro ch hch
        by_cases e : ch = n
        · subst e
          simp [h, List.getElem?_set, hlen]
          omega
        · rw [List.getElem?_set_ne (by omega)]
          exact hptr ch (by omega)
      · intro b
        rw [hbit b]
        constructor
        · rintro ⟨hb, ch, hch, hmod, hpad⟩
          exact ⟨hb, ch, by omega, hmod, hpad⟩
        · rintro ⟨hb, ch, hch, hmod, hpad⟩
          exact ⟨hb, ch, by omega, hmod, hpad⟩
    · simp only [h, if_false]
      refine ⟨by simp [hlen], ?_, ?_⟩
      · intro ch hch
        by_cases e : ch = n
        · subst e
          simp [h, List.getElem?_set, hlen]
          omega
        · rw [List.getElem?_set_ne (by omega)]
          exact hptr ch (by omega)
      · intro b
        rw [Nat.testBit_mod_two_pow, Nat.testBit_or, Nat.one_shiftLeft, Nat.testBit_two_pow]
        simp only [Bool.and_eq_true, Bool.or_eq_true, decide_eq_true_eq]
        rw [hbit b]
        constructor
        · rintro ⟨hb, h1 | h1⟩
          · obtain ⟨_, ch, hch, hmod, hpad⟩ := h1
            exact ⟨hb, ch, by omega, hmod, hpad⟩
          · exact ⟨hb, n, by omega, h1, by omega⟩
        · rintro ⟨hb, ch, hch, hmod, hpad⟩
          refine ⟨hb, ?_⟩
          by_cases e : ch = n
          · subst e
            exact Or.inr hmod
          · exact Or.inl ⟨hb, ch, by omega, hmod, hpad⟩

theorem outputChannelLoop_upTo (N off count n : Nat) (hn : n ≤ count) :
    ((List.range n).foldl (outputChannelStep N off)
        (List.replicate count ChannelPtr.unbound)).length = count ∧
    (∀ ch, ch < n →
      ((List.range n).foldl (outputChannelStep N off)
        (List.replicate count ChannelPtr.unbound))[ch]? =
        some (if off + ch < N then ChannelPtr.hostOutput (off + ch)
              else ChannelPtr.silentOutput)) := by
  induction n with
  | zero => simp
  | succ n ih =>
    obtain ⟨hlen, hptr⟩ := ih (Nat.le_of_succ_le hn)
    rw [List.range_succ, List.foldl_append]
    simp only [List.foldl_cons, List.foldl_nil]
    generalize (List.range n).foldl (outputChannelStep N off)
        (List.replicate count ChannelPtr.unbound) = st at hlen hptr
    unfold outputChannelStep
    by_cases h : off + n < N
    · simp only [h, if_true]
      refine ⟨by simp [hlen], ?_⟩
      intro ch hch
      by_cases e : ch = n
      · subst e
        simp [h, List.getElem?_set, hlen]
        omega
      · rw [List.getElem?_set_ne (by omega)]
        exact hptr ch (by omega)
    · simp only [h, if_false]
      refine ⟨by simp [hlen], ?_⟩
      intro ch hch
      by_cases e : ch = n
      · subst e
        simp [h, List.getElem?_set, hlen]
        omega
      · rw [List.getElem?_set_ne (by omega)]
        exact hptr ch (by omega)

/-- The record the input bus loop stores for one bus. -/
theorem inputBusStep_eq (N : Nat) (st : List AudioBusBuffers × Nat) (info : Option BusInfo) :
    inputBusStep N st info =
      (st.1 ++ [(inputBusStep N ([], st.2) info).1.headD ⟨0, 0, none⟩],
       (inputBusStep N ([], st.2) info).2) := by
  cases info <;> simp [inputBusStep]

theorem outputBusStep_eq (N : Nat) (st : List AudioBusBuffers × Nat) (info : Option BusInfo) :
    outputBusStep N st info =
      (st.1 ++ [(outputBusStep N ([], st.2) info).1.headD ⟨0, 0, none⟩],
       (outputBusStep N ([], st.2) info).2) := by
  cases info <;> simp [outputBusStep]

theorem inputBusLoop_offset (N : Nat) (infos : List (Option BusInfo))
    (st : List AudioBusBuffers × Nat) :
    (infos.foldl (inputBusStep N) st).2 = st.2 + declaredChannels infos := by
  induction infos generalizing st with
  | nil => simp [declaredChannels]
  | cons x xs ih =>
    rw [List.foldl_cons, ih]
    cases x with
    | none => simp [inputBusStep, declaredChannels]
    | some busInfo =>
      simp [inputBusStep, declaredChannels]
      omega

theorem outputBusLoop_offset (N : Nat) (infos : List (Option BusInfo))
    (st : List AudioBusBuffers × Nat) :
    (infos.foldl (outputBusStep N) st).2 = st.2 + declaredChannels infos := by
  induction infos generalizing st with
  | nil => simp [declaredChannels]
  | cons x xs ih =>
    rw [List.foldl_cons, ih]
    cases x with
    | none => simp [outputBusStep, declaredChannels]
    | some busInfo =>
      simp [outputBusStep, declaredChannels]
      omega

theorem inputBusLoop_getElem (infos : List (Option BusInfo)) (N k : Nat)
    (info : Option BusInfo) (hk : infos[k]? = some info) :
    (inputBusLoop infos N).1[k]? =
      some ((inputBusStep N ([], inputChannelOffsetAt infos N k) info).1.headD ⟨0, 0, none⟩) :=
  foldl_snoc_getElem (inputBusStep N)
    (fun o x => (inputBusStep N ([], o) x).1.headD ⟨0, 0, none⟩)
    (fun o x => (inputBusStep N ([], o) x).2)
    (inputBusStep_eq N) 0 infos k info hk

theorem outputBusLoop_getElem (infos : List (Option BusInfo)) (N k : Nat)
    (info : Option BusInfo) (hk : infos[k]? = some info) :
    (outputBusLoop infos N).1[k]? =
      some ((outputBusStep N ([], outputChannelOffsetAt infos N k) info).1.headD ⟨0, 0, none⟩) :=
  foldl_snoc_getElem (outputBusStep N)
    (fun o x => (outputBusStep N ([], o) x).1.headD ⟨0, 0, none⟩)
    (fun o x => (outputBusStep N ([], o) x).2)
    (outputBusStep_eq N) 0 infos k info hk

theorem outputBusLoop_length (infos : List (Option BusInfo)) (N : Nat) :
    (outputBusLoop infos N).1.length = infos.length := by
  have := foldl_snoc_length (outputBusStep N)
    (fun o x => (outputBusStep N ([], o) x).1.headD ⟨0, 0, none⟩)
    (fun o x => (outputBusStep N ([], o) x).2)
    (outputBusStep_eq N) infos ([], 0)
  simpa [outputBusLoop] using this

theorem inputBusLoop_length (infos : List (Option BusInfo)) (N : Nat) :
    (inputBusLoop infos N).1.length = infos.length := by
  have := foldl_snoc_length (inputBusStep N)
    (fun o x => (inputBusStep N ([], o) x).1.headD ⟨0, 0, none⟩)
    (fun o x => (inputBusStep N ([], o) x).2)
    (inputBusStep_eq N) infos ([], 0)
  simpa [inputBusLoop] using this

theorem outputBusLoop_getElem_some (infos : List (Option BusInfo)) (N k : Nat)
    (busInfo : BusInfo) (hk : infos[k]? = some (some busInfo)) :
    (outputBusLoop infos N).1[k]? = some
      { numChannels := busInfo.channelCount, silenceFlags := 0,
        channelBuffers32 := some (outputChannelLoop N (outputChannelOffsetAt infos N k)
          busInfo.channelCount) } := by
  have hget := outputBusLoop_getElem infos N k _ hk
  simpa [outputBusStep] using hget

theorem outputBusLoop_getElem_none (infos : List (Option BusInfo)) (N k : Nat)
    (hk : infos[k]? = some none) :
    (outputBusLoop infos N).1[k]? = some
      { numChannels := 0, silenceFlags := 0, channelBuffers32 := none } := by
  have hget := outputBusLoop_getElem infos N k _ hk
  simpa [outputBusStep] using hget

theorem outputChannelLoop_getElem (N off count ch : Nat) (hch : ch < count) :
    (outputChannelLoop N off count)[ch]? =
      some (if off + ch < N then ChannelPtr.hostOutput (off + ch)
            else ChannelPtr.silentOutput) :=
  (outputChannelLoop_upTo N off count count (Nat.le_refl _)).2 ch hch

theorem outputChannelLoop_length (N off count : Nat) :
    (outputChannelLoop N off count).length = count :=
  (outputChannelLoop_upTo N off count count (Nat.le_refl _)).1

/-! ## Bus mapping: channel offsets and bindings -/

/-- C1: in the input bus mapping the channel offset at which bus `k` starts is the sum of
the declared channel counts of the buses before `k` whose bus-info query succeeded,
whatever the number of host input channels. With declared counts 2 and 1 and a
2-channel host, bus 0 starts at 0, bus 1 at 2 and a further bus 2 at 3. -/
theorem inputChannelOffsetAt_eq_declared (infos : List (Option BusInfo))
    (numChannels k : Nat) :
    inputChannelOffsetAt infos numChannels k = declaredChannels (infos.take k) ∧
    inputChannelOffsetAt [some ⟨2⟩, some ⟨1⟩] 2 0 = 0 ∧
    inputChannelOffsetAt [some ⟨2⟩, some ⟨1⟩] 2 1 = 2 ∧
    inputChannelOffsetAt [some ⟨2⟩, some ⟨1⟩] 2 2 = 3 := by
  refine ⟨?_, by decide, by decide, by decide⟩
  have h := inputBusLoop_offset numChannels (infos.take k) ([], 0)
  simpa [inputChannelOffsetAt, inputBusLoop] using h

/-- C2: for an input bus `k` whose bus-info query succeeds, `numChannels` of the bus is the
declared count, the pointer array has one slot per declared channel, none left
unassigned, and at every channel position `ch` below the declared count the slot points
to host input channel `offset + ch` when that is below the host input channel count
and to the silent input buffer otherwise. When every channel position is below 64 (the
bus declares at most 64 channels), bit `ch` of the silence flags is clear in the first
case and set in the second, so the set bits are exactly the padded positions. For any
declared count, bit `b` is set exactly when some padded position is `b` modulo 64. -/
theorem inputBusLoop_binding (infos : List (Option BusInfo)) (numChannels k : Nat)
    (busInfo : BusInfo) (hk : infos[k]? = some (some busInfo)) :
    ∃ bus ptrs,
      (inputBusLoop infos numChannels).1[k]? = some bus ∧
      bus.numChannels = busInfo.channelCount ∧
      bus.channelBuffers32 = some ptrs ∧
      ptrs.length = busInfo.channelCount ∧
      (∀ ch, ch < busInfo.channelCount →
        (inputChannelOffsetAt infos numChannels k + ch < numChannels →
          ptrs[ch]? =
            some (ChannelPtr.hostInput (inputChannelOffsetAt infos numChannels k + ch))) ∧
        (¬ inputChannelOffsetAt infos numChannels k + ch < numChannels →
          ptrs[ch]? = some ChannelPtr.silentInput)) ∧
      (∀ p, p ∈ ptrs → p ≠ ChannelPtr.unbound) ∧
      (busInfo.channelCount ≤ 64 →
        (∀ ch, ch < busInfo.channelCount →
          (inputChannelOffsetAt infos numChannels k + ch < numChannels →
            bus.silenceFlags.testBit ch = false) ∧
          (¬ inputChannelOffsetAt infos numChannels k + ch < numChannels →
            bus.silenceFlags.testBit ch = true)) ∧
        (∀ b, bus.silenceFlags.testBit b = true ↔
          (b < busInfo.channelCount ∧
            ¬ inputChannelOffsetAt infos numChannels k + b < numChannels))) ∧
      (∀ b, bus.silenceFlags.testBit b = true ↔
        (b < 64 ∧ ∃ ch, ch < busInfo.channelCount ∧ ch % 64 = b ∧
          ¬ inputChannelOffsetAt infos numChannels k + ch < numChannels)) := by
  have hget := inputBusLoop_getElem infos numChannels k _ hk
  simp only [inputBusStep, List.nil_append, List.headD_cons] at hget
  generalize inputChannelOffsetAt infos numChannels k = off at hget ⊢
  obtain ⟨hlen, hptr, hbit⟩ := inputChannelLoop_upTo numChannels off
    busInfo.channelCount busInfo.channelCount (Nat.le_refl _)
  have hflags : ∀ b, (inputChannelLoop numChannels off busInfo.channelCount).2.testBit b = true ↔
      (b < 64 ∧ ∃ ch, ch < busInfo.channelCount ∧ ch % 64 = b ∧ ¬ off + ch < numChannels) := by
    intro b
    unfold inputChannelLoop
    rw [hbit b]
    constructor
    · rintro ⟨hb, ch, hch, hmod, hpad⟩
      exact ⟨hb, ch, hch, hmod, by omega⟩
    · rintro ⟨hb, ch, hch, hmod, hpad⟩
      exact ⟨hb, ch, hch, hmod, by omega⟩
  have hsmall : busInfo.channelCount ≤ 64 → ∀ b,
      (inputChannelLoop numChannels off busInfo.channelCount).2.testBit b = true ↔
      (b < busInfo.channelCount ∧ ¬ off + b < numChannels) := by
    intro hcount b
    rw [hflags b]
    constructor
    · rintro ⟨hb, ch, hch, hmod, hpad⟩
      have hcb : ch = b := by omega
      subst hcb
      exact ⟨hch, hpad⟩
    · rintro ⟨hb, hpad⟩
      exact ⟨by omega, b, hb, by omega, hpad⟩
  refine ⟨_, _, hget, rfl, rfl, hlen, ?_, ?_, ?_, hflags⟩
  · intro ch hch
    constructor
    · intro h
      simpa [h] using hptr ch hch
    · intro h
      simpa [h] using hptr ch hch
  · intro p hp
    obtain ⟨ch, hch, hget2⟩ := List.getElem_of_mem hp
    have hch2 : ch < busInfo.channelCount := by
      rw [← hlen]
      exact hch
    have h1 := hptr ch hch2
    have h2 : (inputChannelLoop numChannels off busInfo.channelCount).1[ch]? = some p := by
      rw [List.getElem?_eq_getElem hch, hget2]
    unfold inputChannelLoop at h2
    rw [h1] at h2
    injection h2 with h2
    rw [← h2]
    split <;> simp
  · intro hcount
    refine ⟨?_, hsmall hcount⟩
    intro ch hch
    constructor
    · intro h
      have := (hsmall hcount ch).not
      simp only [Bool.not_eq_true] at this
      rw [this]
      intro hc
      exact hc.2 h
    · intro h
      exact (hsmall hcount ch).mpr ⟨hch, h⟩

/-- Witness of `inputBusLoop_binding`: declared counts 2 and 1 against a 2-channel host,
at bus 1, whose single channel is padded and whose silence flags are 1. -/
theorem inputBusLoop_binding_witness :
    ([some ⟨2⟩, some ⟨1⟩] : List (Option BusInfo))[1]? = some (some ⟨1⟩) ∧
    (inputBusLoop [some ⟨2⟩, some ⟨1⟩] 2).1[1]? =
      some ⟨1, 1, some [ChannelPtr.silentInput]⟩ ∧
    ∃ bus ptrs,
      (inputBusLoop [some ⟨2⟩, some ⟨1⟩] 2).1[1]? = some bus ∧
      bus.numChannels = 1 ∧
      bus.channelBuffers32 = some ptrs ∧
      ptrs.length = 1 ∧
      (∀ ch, ch < 1 →
        (inputChannelOffsetAt [some ⟨2⟩, some ⟨1⟩] 2 1 + ch < 2 →
          ptrs[ch]? = some (ChannelPtr.hostInput
            (inputChannelOffsetAt [some ⟨2⟩, some ⟨1⟩] 2 1 + ch))) ∧
        (¬ inputChannelOffsetAt [some ⟨2⟩, some ⟨1⟩] 2 1 + ch < 2 →
          ptrs[ch]? = some ChannelPtr.silentInput)) ∧
      (∀ p, p ∈ ptrs → p ≠ ChannelPtr.unbound) ∧
      ((1 : Nat) ≤ 64 →
        (∀ ch, ch < 1 →
          (inputChannelOffsetAt [some ⟨2⟩, some ⟨1⟩] 2 1 + ch < 2 →
            bus.silenceFlags.testBit ch = false) ∧
          (¬ inputChannelOffsetAt [some ⟨2⟩, some ⟨1⟩] 2 1 + ch < 2 →
            bus.silenceFlags.testBit ch = true)) ∧
        (∀ b, bus.silenceFlags.testBit b = true ↔
          (b < 1 ∧ ¬ inputChannelOffsetAt [some ⟨2⟩, some ⟨1⟩] 2 1 + b < 2))) ∧
      (∀ b, bus.silenceFlags.testBit b = true ↔
        (b < 64 ∧ ∃ ch, ch < 1 ∧ ch % 64 = b ∧
          ¬ inputChannelOffsetAt [some ⟨2⟩, some ⟨1⟩] 2 1 + ch < 2)) :=
  ⟨by decide, by decide,
   inputBusLoop_binding [some ⟨2⟩, some ⟨1⟩] 2 1 ⟨1⟩ (by decide)⟩

/-- Beyond 64 channels the silence flags wrap: a bus of 65 channels on a 1-channel host has
every bit set, bit 0 by the padded position 64. -/
theorem inputChannelLoop_wraps :
    (inputChannelLoop 1 0 65).2 = 2 ^ 64 - 1 := by
  decide

/-- C5: when the bundle file exists, the library loads, a factory is obtained, a class is
selected and its component is created and initialized successfully, `_openVst3Plugin`
returns success with the initialization flag set, whatever the answers to the
processing-capability query, the bus counts, the bus-info queries, `setupProcessing`
and `setActive`. -/
theorem openVst3Plugin_succeeds (env : OpenEnv) (plugin : Plugin)
    (data : PluginVst3DataMembers) (library factory component idx : Nat)
    (classInfo : PClassInfo)
    (hdata : plugin.extraData = some data)
    (hfile : env.fileExistsAtName = true ∨ env.fileExistsInLocation = true)
    (hlib : env.getLibraryHandleForVst3Plugin = some library)
    (hfactory : env.getVst3PluginFactory = some factory)
    (hcount : env.countClasses ≠ 0)
    (hclass : selectClass env = some (idx, classInfo))
    (hcreate : env.createInstance classInfo.cid = (kResultOk, some component))
    (hinit : env.initComponentResult = kResultOk) :
    (_openVst3Plugin env plugin).success = true ∧
    ∃ data1, (_openVst3Plugin env plugin).plugin.extraData = some data1 ∧
      data1.isInitialized = true := by
  unfold _openVst3Plugin
  rw [hdata]
  simp only
  by_cases hflag : data.isInitialized = true
  · simp [hflag, hdata]
  · have hfile2 : (env.fileExistsAtName || env.fileExistsInLocation) = true := by
      cases hfile with
      | inl h => simp [h]
      | inr h => simp [h]
    simp only [hflag, hfile2, hlib, hfactory, Bool.not_true, Bool.false_eq_true, if_false]
    unfold openWithFactory
    simp only [hcount, hclass, hcreate, hinit, if_false, ne_eq, not_true_eq_false]
    simp [openInitialized]

/-- A fatal condition met from a state with the flag false and null component and
processor handles: open fails and leaves the flag false and both handles null. -/
theorem openVst3Plugin_fails_of_null (env : OpenEnv) (plugin : Plugin)
    (data : PluginVst3DataMembers)
    (hdata : plugin.extraData = some data)
    (hflag : data.isInitialized = false)
    (hinst : data.pluginInstance = none)
    (hproc : data.audioProcessor = none)
    (hfatal :
      (env.fileExistsAtName = false ∧ env.fileExistsInLocation = false) ∨
      env.getLibraryHandleForVst3Plugin = none ∨
      env.getVst3PluginFactory = none ∨
      (∀ idx classInfo, selectClass env = some (idx, classInfo) →
        (env.createInstance classInfo.cid).1 ≠ kResultOk ∨
        (env.createInstance classInfo.cid).2 = none) ∨
      env.initComponentResult ≠ kResultOk) :
    (_openVst3Plugin env plugin).success = false ∧
    ∃ data1, (_openVst3Plugin env plugin).plugin.extraData = some data1 ∧
      data1.isInitialized = false ∧ data1.pluginInstance = none ∧
      data1.audioProcessor = none := by
  unfold _openVst3Plugin
  rw [hdata]
  simp only [hflag, Bool.false_eq_true, if_false]
  by_cases hfile : (env.fileExistsAtName || env.fileExistsInLocation) = true
  · simp only [hfile, Bool.not_true, Bool.false_eq_true, if_false]
    cases hlib : env.getLibraryHandleForVst3Plugin with
    | none => simp [hflag, hinst, hproc]
    | some library =>
      cases hfac : env.getVst3PluginFactory with
      | none => simp [hflag, hinst, hproc]
      | some factory =>
        simp only
        unfold openWithFactory
        by_cases hcount : env.countClasses = 0
        · simp [hcount, hflag, hinst, hproc]
        · simp only [hcount, if_false]
          cases hclass : selectClass env with
          | none => simp [hflag, hinst, hproc]
          | some found =>
            obtain ⟨idx, classInfo⟩ := found
            simp only
            cases hc2 : (env.createInstance classInfo.cid).2 with
            | none => simp [hflag, hinst, hproc]
            | some component =>
              simp only
              by_cases hc1 : (env.createInstance classInfo.cid).1 = kResultOk
              · by_cases hinit : env.initComponentResult = kResultOk
                · exfalso
                  rcases hfatal with h | h | h | h | h
                  · simp [h.1, h.2] at hfile
                  · simp [h] at hlib
                  · simp [h] at hfac
                  · rcases h idx classInfo hclass with h | h
                    · exact h hc1
                    · simp [h] at hc2
                  · exact h hinit
                · simp [hc1, hinit, hflag, hproc]
              · simp [hc1, hflag, hinst, hproc]
  · simp [hfile, hdata, hflag, hinst, hproc]

theorem openVst3Plugin_consistent (env : OpenEnv) (plugin : Plugin)
    (h : handlesConsistent plugin) : handlesConsistent (_openVst3Plugin env plugin).plugin := by
  unfold _openVst3Plugin
  cases hd : plugin.extraData with
  | none =>
    simp only
    exact h
  | some data =>
    have hc := h data hd
    simp only
    by_cases hflag : data.isInitialized = true
    · simp only [hflag, if_true]
      exact h
    · have hinst : data.pluginInstance = none := by
        by_contra hne
        exact hflag (hc.1 hne)
      have hproc : data.audioProcessor = none := by
        by_contra hne
        exact hc.2 hne hinst
      simp only [hflag, Bool.false_eq_true, if_false]
      split
      · exact h
      · split
        · intro d hdd
          simp only [Option.some.injEq] at hdd
          subst hdd
          simp [hinst, hproc]
        · split
          · intro d hdd
            simp only [Option.some.injEq] at hdd
            subst hdd
            simp [hinst, hproc]
          · unfold openWithFactory
            split
            · intro d hdd
              simp only [Option.some.injEq] at hdd
              subst hdd
              simp [hinst, hproc]
            · split
              · intro d hdd
                simp only [Option.some.injEq] at hdd
                subst hdd
                simp [hinst, hproc]
              · simp only
                split
                · intro d hdd
                  simp only [Option.some.injEq] at hdd
                  subst hdd
                  simp [hinst, hproc]
                · split
                  · intro d hdd
                    simp only [Option.some.injEq] at hdd
                    subst hdd
                    simp [hinst, hproc]
                  · split
                    · intro d hdd
                      simp only [Option.some.injEq] at hdd
                      subst hdd
                      simp [hproc]
                    · intro d hdd
                      simp only [openInitialized, Option.some.injEq] at hdd
                      subst hdd
                      simp

/-- Every plugin object the host can hold keeps the handle discipline. -/
theorem reachable_consistent (plugin : Plugin) (h : Reachable plugin) :
    handlesConsistent plugin := by
  induction h with
  | create e a p hnew =>
    intro data hd
    unfold newPluginVst3 at hnew
    split at hnew
    · cases hnew
    · split at hnew
      · cases hnew
      · simp only [Option.some.injEq] at hnew
        rw [← hnew] at hd
        simp only [Option.some.injEq] at hd
        rw [← hd]
        simp [newPluginVst3Data]
  | openPlugin env p _ ih => exact openVst3Plugin_consistent env p ih
  | closePlugin p _ _ =>
    intro data hd
    unfold _closeVst3Plugin at hd
    split at hd
    · rename_i hnone
      rw [hnone] at hd
      cases hd
    · cases hd

/-- C6: for every plugin object the host can hold whose data is not yet initialized, if the
open sequence meets one of the five fatal conditions (no bundle file exists, the
library cannot be loaded, no factory is obtained, creating the component of the
selected class fails, the component rejects initialization), `_openVst3Plugin` returns
failure and afterwards the initialization flag is false and the component and audio
processor handles are null. -/
theorem openVst3Plugin_fails (env : OpenEnv) (plugin : Plugin)
    (data : PluginVst3DataMembers)
    (hreach : Reachable plugin)
    (hdata : plugin.extraData = some data)
    (hflag : data.isInitialized = false)
    (hfatal :
      (env.fileExistsAtName = false ∧ env.fileExistsInLocation = false) ∨
      env.getLibraryHandleForVst3Plugin = none ∨
      env.getVst3PluginFactory = none ∨
      (∀ idx classInfo, selectClass env = some (idx, classInfo) →
        (env.createInstance classInfo.cid).1 ≠ kResultOk ∨
        (env.createInstance classInfo.cid).2 = none) ∨
      env.initComponentResult ≠ kResultOk) :
    (_openVst3Plugin env plugin).success = false ∧
    ∃ data1, (_openVst3Plugin env plugin).plugin.extraData = some data1 ∧
      data1.isInitialized = false ∧ data1.pluginInstance = none ∧
      data1.audioProcessor = none := by
  have hc := reachable_consistent plugin hreach data hdata
  have hinst : data.pluginInstance = none := by
    by_contra hne
    have := hc.1 hne
    rw [hflag] at this
    cases this
  have hproc : data.audioProcessor = none := by
    by_contra hne
    exact hc.2 hne hinst
  exact openVst3Plugin_fails_of_null env plugin data hdata hflag hinst hproc hfatal

/-- Witness of `openVst3Plugin_succeeds`: a fresh plugin object and a plugin binary without
processing capability and without buses. -/
theorem openVst3Plugin_succeeds_witness :
    (_openVst3Plugin { exampleOpenEnv with
        queryInterface := (1, none), getBusCount := fun _ _ => 0 } freshPlugin).success = true ∧
    ∃ data1, (_openVst3Plugin { exampleOpenEnv with
        queryInterface := (1, none), getBusCount := fun _ _ => 0 } freshPlugin).plugin.extraData
        = some data1 ∧ data1.isInitialized = true :=
  openVst3Plugin_succeeds { exampleOpenEnv with
      queryInterface := (1, none), getBusCount := fun _ _ => 0 } freshPlugin
    newPluginVst3Data 1 2 3 0 { cid := 7, category := "Audio Module Class", name := "Gain" }
    rfl (Or.inl rfl) rfl rfl (by decide) (by decide) rfl rfl

/-- Witness of `openVst3Plugin_fails`: a fresh plugin object whose component rejects
initialization. -/
theorem openVst3Plugin_fails_witness :
    (_openVst3Plugin { exampleOpenEnv with initComponentResult := 1 } freshPlugin).success
      = false ∧
    ∃ data1, (_openVst3Plugin { exampleOpenEnv with initComponentResult := 1 }
        freshPlugin).plugin.extraData = some data1 ∧
      data1.isInitialized = false ∧ data1.pluginInstance = none ∧
      data1.audioProcessor = none :=
  openVst3Plugin_fails { exampleOpenEnv with initComponentResult := 1 } freshPlugin
    newPluginVst3Data (Reachable.create true true freshPlugin rfl) rfl rfl
    (Or.inr (Or.inr (Or.inr (Or.inr (by decide)))))

/-! ## Close -/

/-- C7: the release calls of `_closeVst3Plugin` are a subsequence of the fixed order
release audio processor, terminate component, release component, release factory,
unload library, and each of them is made exactly when the corresponding handle is
non-null at entry; without data no call is made. -/
theorem closeVst3Plugin_calls (plugin : Plugin) :
    List.Sublist (_closeVst3Plugin plugin).2
      [Vst3Call.releaseAudioProcessor, Vst3Call.terminateComponent,
       Vst3Call.releaseComponent, Vst3Call.releaseFactory, Vst3Call.closeLibraryHandle] ∧
    (plugin.extraData = none → (_closeVst3Plugin plugin).2 = []) ∧
    (∀ data, plugin.extraData = some data →
      (Vst3Call.releaseAudioProcessor ∈ (_closeVst3Plugin plugin).2 ↔
        data.audioProcessor ≠ none) ∧
      (Vst3Call.terminateComponent ∈ (_closeVst3Plugin plugin).2 ↔
        data.pluginInstance ≠ none) ∧
      (Vst3Call.releaseComponent ∈ (_closeVst3Plugin plugin).2 ↔
        data.pluginInstance ≠ none) ∧
      (Vst3Call.releaseFactory ∈ (_closeVst3Plugin plugin).2 ↔
        data.pluginFactory ≠ none) ∧
      (Vst3Call.closeLibraryHandle ∈ (_closeVst3Plugin plugin).2 ↔
        data.libraryHandle ≠ none)) := by
  unfold _closeVst3Plugin
  cases hd : plugin.extraData with
  | none => simp
  | some data =>
    obtain ⟨library, factory, component, processor, flag, nin, nout, host⟩ := data
    simp only [Option.some.injEq, forall_eq', false_implies, true_and, reduceCtorEq]
    cases library <;> cases factory <;> cases component <;> cases processor
    all_goals simp
    decide

/-- C8: closing twice gives the same plugin object as closing once and the second close
makes no release call; the first close gives up every handle held at entry, each
through its own release call and once (for a plugin object that was never opened there
is none to give up), and afterwards the data is detached and no library, factory,
component or processor handle is held. -/
theorem closeVst3Plugin_idempotent (plugin : Plugin) :
    (_closeVst3Plugin (_closeVst3Plugin plugin).1).1 = (_closeVst3Plugin plugin).1 ∧
    (_closeVst3Plugin (_closeVst3Plugin plugin).1).2 = [] ∧
    (_closeVst3Plugin plugin).1.extraData = none ∧
    heldHandles (_closeVst3Plugin plugin).1 = [] ∧
    (∀ data, plugin.extraData = some data →
      (_closeVst3Plugin plugin).2.filterMap (releasedHandle data) = heldHandles plugin) ∧
    (plugin.extraData = none →
      (_closeVst3Plugin plugin).2 = [] ∧ heldHandles plugin = []) ∧
    (_closeVst3Plugin freshPlugin).2 = [] ∧
    (_closeVst3Plugin activePlugin).2 =
      [Vst3Call.releaseAudioProcessor, Vst3Call.terminateComponent,
       Vst3Call.releaseComponent, Vst3Call.releaseFactory, Vst3Call.closeLibraryHandle] ∧
    (_closeVst3Plugin activePlugin).2.filterMap
      (releasedHandle
        { libraryHandle := some 1, pluginFactory := some 2, pluginInstance := some 3,
          audioProcessor := some 4, isInitialized := true, inputBusCount := 1,
          outputBusCount := 1, hostApplication := none }) = [4, 3, 2, 1] := by
  refine ⟨?_, ?_, ?_, ?_, ?_, ?_, by decide, by decide, by decide⟩
  · unfold _closeVst3Plugin
    cases hd : plugin.extraData with
    | none => simp [hd]
    | some data => simp
  · unfold _closeVst3Plugin
    cases hd : plugin.extraData with
    | none => simp [hd]
    | some data => simp
  · unfold _closeVst3Plugin
    cases hd : plugin.extraData with
    | none => simp [hd]
    | some data => simp
  · unfold _closeVst3Plugin
    cases hd : plugin.extraData with
    | none => simp [hd, heldHandles]
    | some data => simp [heldHandles]
  · intro data hd
    unfold _closeVst3Plugin heldHandles
    rw [hd]
    obtain ⟨library, factory, component, processor, flag, nin, nout, host⟩ := data
    cases library <;> cases factory <;> cases component <;> cases processor <;>
      simp [releasedHandle]
  · intro hd
    unfold _closeVst3Plugin heldHandles
    rw [hd]
    simp

/-! ## The settings query -/

/-- C9 (as the code has it): for an initialized instance without a component,
`_getVst3Setting` returns 2 input channels, 2 output channels, latency 0 and tail
time 0; for an initialized instance without the processing capability it returns
latency 0 and tail time 0; with a component the channel counts are the sums over the
buses (2 when the sum is 0), with or without the processing capability; and without
data or before initialization every query returns 0. -/
theorem getVst3Setting_defaults (env : SettingEnv) (plugin : Plugin) :
    (∀ data, plugin.extraData = some data → data.isInitialized = true →
      data.pluginInstance = none →
      _getVst3Setting env plugin PluginSetting.PLUGIN_NUM_INPUTS = 2 ∧
      _getVst3Setting env plugin PluginSetting.PLUGIN_NUM_OUTPUTS = 2 ∧
      _getVst3Setting env plugin PluginSetting.PLUGIN_INITIAL_DELAY = 0 ∧
      _getVst3Setting env plugin PluginSetting.PLUGIN_SETTING_TAIL_TIME_IN_MS = 0) ∧
    (∀ data, plugin.extraData = some data → data.isInitialized = true →
      data.audioProcessor = none →
      _getVst3Setting env plugin PluginSetting.PLUGIN_INITIAL_DELAY = 0 ∧
      _getVst3Setting env plugin PluginSetting.PLUGIN_SETTING_TAIL_TIME_IN_MS = 0) ∧
    (∀ data, plugin.extraData = some data → data.isInitialized = true →
      data.pluginInstance ≠ none →
      _getVst3Setting env plugin PluginSetting.PLUGIN_NUM_INPUTS =
        (if countChannels env BusDirection.kInput > 0
          then (countChannels env BusDirection.kInput : Int) else 2) ∧
      _getVst3Setting env plugin PluginSetting.PLUGIN_NUM_OUTPUTS =
        (if countChannels env BusDirection.kOutput > 0
          then (countChannels env BusDirection.kOutput : Int) else 2)) ∧
    ((plugin.extraData = none ∨
        ∃ data, plugin.extraData = some data ∧ data.isInitialized = false) →
      ∀ setting, _getVst3Setting env plugin setting = 0) := by
  refine ⟨?_, ?_, ?_, ?_⟩
  · intro data hd hflag hinst
    simp [_getVst3Setting, hd, hflag, hinst]
  · intro data hd hflag hproc
    cases hinst : data.pluginInstance <;> simp [_getVst3Setting, hd, hflag, hproc, hinst]
  · intro data hd hflag hinst
    cases hc : data.pluginInstance with
    | none => exact absurd hc hinst
    | some component => simp [_getVst3Setting, hd, hflag, hc]
  · intro h setting
    rcases h with h | ⟨data, hd, hflag⟩
    · simp [_getVst3Setting, h]
    · simp [_getVst3Setting, hd, hflag]

/-- C9 fails in two places: the plugin object right after `newPluginVst3` (never opened,
not initialized, no component) is answered 0 input channels and 0 output channels,
not 2; and an opened instance without the processing capability whose buses declare one
input channel and four output channels is answered 1 and 4, not 2 and 2. -/
theorem getVst3Setting_unopened_counterexample :
    newPluginVst3 true true = some freshPlugin ∧
    _getVst3Setting exampleSettingEnv freshPlugin PluginSetting.PLUGIN_NUM_INPUTS = 0 ∧
    _getVst3Setting exampleSettingEnv freshPlugin PluginSetting.PLUGIN_NUM_OUTPUTS = 0 ∧
    _getVst3Setting exampleSettingEnv degradedPlugin PluginSetting.PLUGIN_NUM_INPUTS = 1 ∧
    _getVst3Setting exampleSettingEnv degradedPlugin PluginSetting.PLUGIN_NUM_OUTPUTS = 4 := by
  decide

/-! ## The static scratch buffers -/

theorem growSilentBuffer_onlyZeros (buffer : Option (List Sample32)) (size required : Nat)
    (h : onlyZeros buffer) : onlyZeros (growSilentBuffer buffer size required).1 := by
  unfold growSilentBuffer
  split
  · intro samples hs x hx
    simp only [Option.some.injEq] at hs
    rw [← hs] at hx
    exact (List.mem_replicate.mp hx).2
  · exact h

theorem passThrough_statics (statics : SilentBuffers) (inputs outputs : Option SampleBuffer) :
    (passThrough statics inputs outputs).statics = statics := by
  unfold passThrough
  split
  · split <;> rfl
  · rfl

/-- The statics after one call: unchanged on the pass-through paths; on the mapped path the
grown buffers, with the silent output buffer as the plugin left it. -/
theorem processVst3Audio_statics (env : ProcessEnv) (statics : SilentBuffers)
    (plugin : Plugin) (inputs outputs : Option SampleBuffer) (out : ProcessOutcome)
    (h : _processVst3Audio env statics plugin inputs outputs = some out) :
    out.statics = statics ∨
    ∃ data o w host, plugin.extraData = some data ∧ outputs = some o ∧
      out.statics = { growStatics statics o.blocksize with
        silentOutputBuffer := some (writeBuses o.blocksize w
          (outputBusLoop (outputBusInfos env data) o.numChannels).1 0
          { host := host,
            silent := (growStatics statics o.blocksize).silentOutputBuffer.getD [] }).silent } := by
  unfold _processVst3Audio at h
  cases hd : plugin.extraData with
  | none =>
    simp only [hd, Option.some.injEq] at h
    left
    rw [← h, passThrough_statics]
  | some data =>
    simp only [hd] at h
    split at h
    · simp only [Option.some.injEq] at h
      left
      rw [← h, passThrough_statics]
    · split at h
      · simp only [Option.some.injEq] at h
        left
        rw [← h, passThrough_statics]
      · cases ho : outputs with
        | none => simp [ho] at h
        | some o =>
          simp only [ho] at h
          split at h
          · simp only [Option.some.injEq] at h
            left
            rw [← h, passThrough_statics]
          · right
            unfold processMapped at h
            simp only at h
            split at h
            · cases h
            · split at h
              · simp only [Option.some.injEq] at h
                refine ⟨data, o, (env.process (mappedProcessData env data inputs o) inputs o
                  (growStatics statics o.blocksize)).written, o.samples.getD [], rfl, rfl, ?_⟩
                rw [← h]
                simp only [passThrough_statics]
                rfl
              · simp only [Option.some.injEq] at h
                refine ⟨data, o, (env.process (mappedProcessData env data inputs o) inputs o
                  (growStatics statics o.blocksize)).written, o.samples.getD [], rfl, rfl, ?_⟩
                rw [← h]
                rfl

theorem writeBus_silent (n : Nat) (w : Nat → Nat → Option Sample32) (ptrs : List ChannelPtr)
    (ch : Nat) (mem : OutputMemory) (h : ChannelPtr.silentOutput ∉ ptrs) :
    (writeBus n w ptrs ch mem).silent = mem.silent := by
  induction ptrs generalizing ch mem with
  | nil => rfl
  | cons p ps ih =>
    simp only [List.mem_cons, not_or] at h
    rw [writeBus, ih _ _ h.2]
    cases p <;> simp [writeChannel] at h ⊢

theorem writeBuses_silent (n : Nat) (w : Nat → Nat → Nat → Option Sample32)
    (buses : List AudioBusBuffers) (busIdx : Nat) (mem : OutputMemory)
    (h : ∀ bus ptrs, bus ∈ buses → bus.channelBuffers32 = some ptrs →
      ChannelPtr.silentOutput ∉ ptrs) :
    (writeBuses n w buses busIdx mem).silent = mem.silent := by
  induction buses generalizing busIdx mem with
  | nil => rfl
  | cons b bs ih =>
    rw [writeBuses, ih _ _ (fun bus ptrs hb => h bus ptrs (List.mem_cons_of_mem _ hb))]
    cases hb : b.channelBuffers32 with
    | none => rfl
    | some ptrs => exact writeBus_silent n _ ptrs 0 mem (h b ptrs (List.mem_cons_self _ _) hb)

theorem declaredChannels_take_le (infos : List (Option BusInfo)) (k : Nat) (busInfo : BusInfo)
    (hk : infos[k]? = some (some busInfo)) :
    declaredChannels (infos.take k) + busInfo.channelCount ≤ declaredChannels infos := by
  induction infos generalizing k with
  | nil => simp at hk
  | cons x xs ih =>
    cases k with
    | zero =>
      simp only [List.getElem?_cons_zero, Option.some.injEq] at hk
      subst hk
      simp [declaredChannels]
    | succ k =>
      simp only [List.getElem?_cons_succ] at hk
      have := ih k hk
      simp only [declaredChannels, List.take_succ_cons, List.map_cons, List.sum_cons] at this ⊢
      omega

theorem outputChannelOffsetAt_eq_declared (infos : List (Option BusInfo)) (N k : Nat) :
    outputChannelOffsetAt infos N k = declaredChannels (infos.take k) := by
  have h := outputBusLoop_offset N (infos.take k) ([], 0)
  simpa [outputChannelOffsetAt, outputBusLoop] using h

/-- When the host has at least as many output channels as the buses declare, no output
slot points to the silent output buffer. -/
theorem outputBusLoop_no_padding (infos : List (Option BusInfo)) (N : Nat)
    (hN : declaredChannels infos ≤ N) (bus : AudioBusBuffers) (ptrs : List ChannelPtr)
    (hbus : bus ∈ (outputBusLoop infos N).1) (hptrs : bus.channelBuffers32 = some ptrs) :
    ChannelPtr.silentOutput ∉ ptrs := by
  intro hp
  obtain ⟨k, hklen, hkget⟩ := List.getElem_of_mem hbus
  have hk2 : (outputBusLoop infos N).1[k]? = some bus := by
    rw [List.getElem?_eq_getElem hklen, hkget]
  have hkinf : k < infos.length := by
    rw [← outputBusLoop_length infos N]
    exact hklen
  have hinfo : infos[k]? = some infos[k] := List.getElem?_eq_getElem hkinf
  cases hcase : infos[k] with
  | none =>
    rw [hcase] at hinfo
    rw [outputBusLoop_getElem_none infos N k hinfo] at hk2
    injection hk2 with hk2
    rw [← hk2] at hptrs
    cases hptrs
  | some busInfo =>
    rw [hcase] at hinfo
    rw [outputBusLoop_getElem_some infos N k busInfo hinfo] at hk2
    injection hk2 with hk2
    rw [← hk2] at hptrs
    injection hptrs with hptrs
    rw [← hptrs] at hp
    obtain ⟨ch, hch, hget⟩ := List.getElem_of_mem hp
    have hch2 : ch < busInfo.channelCount := by
      rw [outputChannelLoop_length] at hch
      exact hch
    have h1 := outputChannelLoop_getElem N (outputChannelOffsetAt infos N k)
      busInfo.channelCount ch hch2
    rw [List.getElem?_eq_getElem hch, hget] at h1
    have hle := declaredChannels_take_le infos k busInfo hinfo
    rw [← outputChannelOffsetAt_eq_declared infos N k] at hle
    have hlt : outputChannelOffsetAt infos N k + ch < N := by omega
    simp [hlt] at h1

/-- One call keeps the silent input buffer zero, and keeps the silent output buffer zero
when no output channel is padded. -/
theorem processVst3Audio_onlyZeros (c : ProcessCall) (statics : SilentBuffers)
    (out : ProcessOutcome)
    (h : _processVst3Audio c.env statics c.plugin c.inputs c.outputs = some out) :
    (onlyZeros statics.silentInputBuffer → onlyZeros out.statics.silentInputBuffer) ∧
    ((∀ data o, c.plugin.extraData = some data → c.outputs = some o →
        declaredChannels (outputBusInfos c.env data) ≤ o.numChannels) →
      onlyZeros statics.silentOutputBuffer → onlyZeros out.statics.silentOutputBuffer) := by
  rcases processVst3Audio_statics c.env statics c.plugin c.inputs c.outputs out h with
    hs | ⟨data, o, w, host, hd, ho, hs⟩
  · rw [hs]
    exact ⟨id, fun _ => id⟩
  · rw [hs]
    constructor
    · intro hz
      exact growSilentBuffer_onlyZeros _ _ _ hz
    · intro hpad hz
      have hno := outputBusLoop_no_padding (outputBusInfos c.env data) o.numChannels
        (hpad data o hd ho)
      simp only
      rw [writeBuses_silent _ _ _ _ _ (fun bus ptrs hb hp => hno bus ptrs hb hp)]
      have hg : onlyZeros (growStatics statics o.blocksize).silentOutputBuffer :=
        growSilentBuffer_onlyZeros _ _ _ hz
      intro samples hsome x hx
      simp only [Option.some.injEq] at hsome
      rw [← hsome] at hx
      cases hb : (growStatics statics o.blocksize).silentOutputBuffer with
      | none => simp [hb] at hx
      | some buf =>
        rw [hb] at hx
        exact hg buf hb x hx

theorem processCalls_onlyZeros (calls : List ProcessCall) (statics0 statics : SilentBuffers)
    (hrun : processCalls statics0 calls = some statics) :
    (onlyZeros statics0.silentInputBuffer → onlyZeros statics.silentInputBuffer) ∧
    ((∀ c, c ∈ calls → ∀ data o, c.plugin.extraData = some data → c.outputs = some o →
        declaredChannels (outputBusInfos c.env data) ≤ o.numChannels) →
      onlyZeros statics0.silentOutputBuffer → onlyZeros statics.silentOutputBuffer) := by
  induction calls generalizing statics0 with
  | nil =>
    simp only [processCalls, Option.some.injEq] at hrun
    rw [← hrun]
    exact ⟨id, fun _ => id⟩
  | cons c rest ih =>
    simp only [processCalls] at hrun
    cases hc : _processVst3Audio c.env statics0 c.plugin c.inputs c.outputs with
    | none => simp [hc] at hrun
    | some out =>
      simp only [hc] at hrun
      have h1 := processVst3Audio_onlyZeros c statics0 out hc
      have h2 := ih out.statics hrun
      constructor
      · intro hz
        exact h2.1 (h1.1 hz)
      · intro hpad hz
        exact h2.2 (fun c2 hc2 => hpad c2 (List.mem_cons_of_mem _ hc2))
          (h1.2 (hpad c (List.mem_cons_self _ _)) hz)

/-- C10 (as the code has it): after every sequence of `_processVst3Audio` calls that starts
with the statics unallocated, whatever the plugin writes through its output pointers,
the silent input buffer holds only zero samples; the silent output buffer holds only
zero samples as long as no call had to pad an output channel, that is, the host
supplied at least as many output channels as the output buses declare. -/
theorem silentBuffers_onlyZeros (calls : List ProcessCall) (statics : SilentBuffers)
    (hrun : processCalls SilentBuffers.init calls = some statics) :
    onlyZeros statics.silentInputBuffer ∧
    ((∀ c, c ∈ calls → ∀ data o, c.plugin.extraData = some data → c.outputs = some o →
        declaredChannels (outputBusInfos c.env data) ≤ o.numChannels) →
      onlyZeros statics.silentOutputBuffer) := by
  have h := processCalls_onlyZeros calls SilentBuffers.init statics hrun
  have hinit : ∀ samples : List Sample32, (none : Option (List Sample32)) = some samples →
      ∀ x, x ∈ samples → x = 0 := by
    intro samples hs
    cases hs
  exact ⟨h.1 hinit, fun hpad => h.2 hpad hinit⟩

/-- Witness of `silentBuffers_onlyZeros`: one mapped call and one pass-through call. -/
theorem silentBuffers_onlyZeros_witness :
    processCalls SilentBuffers.init
      [⟨exampleProcessEnv, activePlugin, some (monoBuffer 5), some (monoBuffer 0)⟩,
       ⟨exampleProcessEnv, freshPlugin, some (monoBuffer 5), some (monoBuffer 0)⟩] =
      some ⟨some [0], 1, some [1], 1⟩ ∧
    onlyZeros (some [0]) :=
  ⟨by decide,
   (silentBuffers_onlyZeros
      [⟨exampleProcessEnv, activePlugin, some (monoBuffer 5), some (monoBuffer 0)⟩,
       ⟨exampleProcessEnv, freshPlugin, some (monoBuffer 5), some (monoBuffer 0)⟩]
      ⟨some [0], 1, some [1], 1⟩ (by decide)).1⟩

/-- C10 fails for the silent output buffer: an output bus of two channels against a
one-channel host output pads channel 1 with the silent output buffer, the plugin
stores the sample 1 through every output pointer, and after the call the silent
output buffer holds the sample 1. -/
theorem silentOutputBuffer_written_counterexample :
    processCalls SilentBuffers.init
      [⟨exampleProcessEnv, activePlugin, some (monoBuffer 5), some (monoBuffer 0)⟩] =
      some { silentInputBuffer := some [0], silentInputBufferSize := 1,
             silentOutputBuffer := some [1], silentOutputBufferSize := 1 } ∧
    ¬ onlyZeros (some [1]) := by
  refine ⟨by decide, ?_⟩
  intro h
  have := h [1] rfl 1 (by simp)
  exact absurd this (by decide)


/-! ## Growth of the static scratch buffers -/

theorem pluginCalled_passThrough (statics : SilentBuffers) (inputs outputs : Option SampleBuffer) :
    pluginCalled (passThrough statics inputs outputs).events = false := by
  unfold passThrough
  split
  · split <;> rfl
  · rfl

/-- A call in which the plugin is invoked took the mapped path: the plugin saw the grown
statics, and the statics afterwards are the grown ones with the silent output buffer as
the plugin left it. -/
theorem processVst3Audio_mapped (env : ProcessEnv) (statics : SilentBuffers)
    (plugin : Plugin) (inputs : Option SampleBuffer) (o : SampleBuffer) (out : ProcessOutcome)
    (h : _processVst3Audio env statics plugin inputs (some o) = some out)
    (hc : pluginCalled out.events = true) :
    ∃ data, plugin.extraData = some data ∧
      out.events.head? = some (ProcessEvent.process (mappedProcessData env data inputs o)
        (env.process (mappedProcessData env data inputs o) inputs o
          (growStatics statics o.blocksize)).result) ∧
      out.statics = { growStatics statics o.blocksize with
        silentOutputBuffer := some (writeBuses o.blocksize
          (env.process (mappedProcessData env data inputs o) inputs o
            (growStatics statics o.blocksize)).written
          (mappedProcessData env data inputs o).outputs 0
          { host := o.samples.getD [],
            silent := (growStatics statics o.blocksize).silentOutputBuffer.getD [] }).silent } := by
  unfold _processVst3Audio at h
  cases hd : plugin.extraData with
  | none =>
    simp only [hd, Option.some.injEq] at h
    rw [← h, pluginCalled_passThrough] at hc
    cases hc
  | some data =>
    simp only [hd] at h
    split at h
    · simp only [Option.some.injEq] at h
      rw [← h, pluginCalled_passThrough] at hc
      cases hc
    · split at h
      · simp only [Option.some.injEq] at h
        rw [← h, pluginCalled_passThrough] at hc
        cases hc
      · split at h
        · simp only [Option.some.injEq] at h
          rw [← h, pluginCalled_passThrough] at hc
          cases hc
        · unfold processMapped at h
          simp only at h
          split at h
          · cases h
          · split at h
            · simp only [Option.some.injEq] at h
              refine ⟨data, rfl, ?_, ?_⟩
              · rw [← h]
                rfl
              · rw [← h]
                simp only [passThrough_statics]
            · simp only [Option.some.injEq] at h
              refine ⟨data, rfl, ?_, ?_⟩
              · rw [← h]
                rfl
              · rw [← h]

theorem capacity_growSilentBuffer (buffer : Option (List Sample32)) (size n : Nat)
    (h : size = capacity buffer) :
    capacity (growSilentBuffer buffer size n).1 = max (capacity buffer) n ∧
    (growSilentBuffer buffer size n).2 = capacity (growSilentBuffer buffer size n).1 ∧
    ((buffer = none ∨ capacity buffer < n) →
      (growSilentBuffer buffer size n).1 = some (List.replicate n 0)) := by
  subst h
  unfold growSilentBuffer
  cases buffer with
  | none => simp [capacity]
  | some b =>
    by_cases hlt : b.length < n
    · simp [capacity, hlt]
      omega
    · simp [capacity, hlt]
      omega

theorem capacity_getD (buffer : Option (List Sample32)) :
    (buffer.getD []).length = capacity buffer := by
  cases buffer <;> rfl

theorem writeChannel_silent_length (n : Nat) (w : Nat → Option Sample32) (mem : OutputMemory)
    (p : ChannelPtr) : (writeChannel n w mem p).silent.length = mem.silent.length := by
  cases p <;> simp [writeChannel, writeBlock]

theorem writeBus_silent_length (n : Nat) (w : Nat → Nat → Option Sample32)
    (ptrs : List ChannelPtr) (ch : Nat) (mem : OutputMemory) :
    (writeBus n w ptrs ch mem).silent.length = mem.silent.length := by
  induction ptrs generalizing ch mem with
  | nil => rfl
  | cons p ps ih => rw [writeBus, ih, writeChannel_silent_length]

theorem writeBuses_silent_length (n : Nat) (w : Nat → Nat → Nat → Option Sample32)
    (buses : List AudioBusBuffers) (busIdx : Nat) (mem : OutputMemory) :
    (writeBuses n w buses busIdx mem).silent.length = mem.silent.length := by
  induction buses generalizing busIdx mem with
  | nil => rfl
  | cons b bs ih =>
    rw [writeBuses, ih]
    cases b.channelBuffers32 with
    | none => rfl
    | some ptrs => exact writeBus_silent_length n _ ptrs 0 mem

/-- The statics of the mapped path: the grown buffers, the silent output buffer with the
length it was grown to. -/
theorem mapped_statics_capacity (statics : SilentBuffers) (n : Nat)
    (w : Nat → Nat → Nat → Option Sample32) (buses : List AudioBusBuffers)
    (host : List (List Sample32)) (hrec : sizesRecorded statics) :
    capacity (growStatics statics n).silentInputBuffer =
      max (capacity statics.silentInputBuffer) n ∧
    capacity (some (writeBuses n w buses 0
        { host := host, silent := (growStatics statics n).silentOutputBuffer.getD [] }).silent) =
      max (capacity statics.silentOutputBuffer) n ∧
    (growStatics statics n).silentInputBufferSize =
      capacity (growStatics statics n).silentInputBuffer ∧
    (growStatics statics n).silentOutputBufferSize =
      capacity (some (writeBuses n w buses 0
        { host := host, silent := (growStatics statics n).silentOutputBuffer.getD [] }).silent) ∧
    capacity (growStatics statics n).silentOutputBuffer =
      max (capacity statics.silentOutputBuffer) n := by
  have hi := capacity_growSilentBuffer statics.silentInputBuffer
    statics.silentInputBufferSize n hrec.1
  have ho := capacity_growSilentBuffer statics.silentOutputBuffer
    statics.silentOutputBufferSize n hrec.2
  have hlen : capacity (some (writeBuses n w buses 0
      { host := host, silent := (growStatics statics n).silentOutputBuffer.getD [] }).silent) =
      capacity (growStatics statics n).silentOutputBuffer := by
    show (writeBuses n w buses 0 _).silent.length = _
    rw [writeBuses_silent_length, capacity_getD]
  refine ⟨hi.1, ?_, hi.2.1, ?_, ho.1⟩
  · rw [hlen]
    exact ho.1
  · rw [hlen]
    exact ho.2.1

theorem processVst3Audio_sizes (env : ProcessEnv) (statics : SilentBuffers)
    (plugin : Plugin) (inputs outputs : Option SampleBuffer) (out : ProcessOutcome)
    (h : _processVst3Audio env statics plugin inputs outputs = some out)
    (hrec : sizesRecorded statics) :
    sizesRecorded out.statics ∧
    capacity statics.silentInputBuffer ≤ capacity out.statics.silentInputBuffer ∧
    capacity statics.silentOutputBuffer ≤ capacity out.statics.silentOutputBuffer := by
  rcases processVst3Audio_statics env statics plugin inputs outputs out h with
    hs | ⟨data, o, w, host, _, _, hs⟩
  · rw [hs]
    exact ⟨hrec, Nat.le_refl _, Nat.le_refl _⟩
  · obtain ⟨h1, h2, h3, h4, _⟩ := mapped_statics_capacity statics o.blocksize w
      (outputBusLoop (outputBusInfos env data) o.numChannels).1 host hrec
    rw [hs]
    refine ⟨⟨h3, h4⟩, ?_, ?_⟩
    · show _ ≤ capacity (growStatics statics o.blocksize).silentInputBuffer
      rw [h1]
      exact Nat.le_max_left _ _
    · show _ ≤ capacity (some _)
      rw [h2]
      exact Nat.le_max_left _ _

theorem processCalls_sizes (calls : List ProcessCall) (statics final : SilentBuffers)
    (h : processCalls statics calls = some final) (hrec : sizesRecorded statics) :
    sizesRecorded final ∧
    capacity statics.silentInputBuffer ≤ capacity final.silentInputBuffer ∧
    capacity statics.silentOutputBuffer ≤ capacity final.silentOutputBuffer := by
  induction calls generalizing statics with
  | nil =>
    simp only [processCalls, Option.some.injEq] at h
    rw [← h]
    exact ⟨hrec, Nat.le_refl _, Nat.le_refl _⟩
  | cons c rest ih =>
    simp only [processCalls] at h
    cases hc : _processVst3Audio c.env statics c.plugin c.inputs c.outputs with
    | none => simp [hc] at h
    | some out =>
      simp only [hc] at h
      have h1 := processVst3Audio_sizes c.env statics c.plugin c.inputs c.outputs out hc hrec
      have h2 := ih out.statics h h1.1
      exact ⟨h2.1, Nat.le_trans h1.2.1 h2.2.1, Nat.le_trans h1.2.2 h2.2.2⟩

theorem sizesRecorded_init : sizesRecorded SilentBuffers.init :=
  ⟨rfl, rfl⟩

/-- A call on the opened example plugin takes the mapped path, from any statics. -/
theorem activeCall_mapped (statics : SilentBuffers) (n : Nat) :
    ∃ out, _processVst3Audio (activeCall n).env statics (activeCall n).plugin
        (activeCall n).inputs (activeCall n).outputs = some out ∧
      pluginCalled out.events = true := by
  simp [activeCall, _processVst3Audio, activePlugin, processMapped, silentBlock,
    exampleProcessEnv, kResultOk, pluginCalled]

/-- After calls on the opened example plugin with the block sizes `ns`, each capacity is
the largest of the prior capacity and the block sizes. -/
theorem activeCalls_capacity (ns : List Nat) (statics : SilentBuffers)
    (hrec : sizesRecorded statics) :
    ∃ final, processCalls statics (ns.map activeCall) = some final ∧
      capacity final.silentInputBuffer = ns.foldl max (capacity statics.silentInputBuffer) ∧
      capacity final.silentOutputBuffer =
        ns.foldl max (capacity statics.silentOutputBuffer) := by
  induction ns generalizing statics with
  | nil => exact ⟨statics, rfl, rfl, rfl⟩
  | cons n rest ih =>
    obtain ⟨out, hout, hcalled⟩ := activeCall_mapped statics n
    obtain ⟨data, _, _, hs⟩ := processVst3Audio_mapped (activeCall n).env statics
      (activeCall n).plugin (activeCall n).inputs (silentBlock n) out hout hcalled
    obtain ⟨h1, h2, _, _, _⟩ := mapped_statics_capacity statics n
      ((activeCall n).env.process (mappedProcessData (activeCall n).env data
        (activeCall n).inputs (silentBlock n)) (activeCall n).inputs (silentBlock n)
        (growStatics statics n)).written
      (mappedProcessData (activeCall n).env data (activeCall n).inputs (silentBlock n)).outputs
      ((silentBlock n).samples.getD []) hrec
    have hrecOut :=
      (processVst3Audio_sizes _ statics _ _ _ out hout hrec).1
    obtain ⟨final, hfinal, hin, hout2⟩ := ih out.statics hrecOut
    refine ⟨final, ?_, ?_, ?_⟩
    · simp only [List.map_cons, processCalls, hout]
      exact hfinal
    · rw [hin, hs]
      simp only [List.foldl_cons]
      show List.foldl max (capacity (growStatics statics n).silentInputBuffer) rest = _
      rw [h1]
    · rw [hout2, hs]
      simp only [List.foldl_cons]
      show List.foldl max (capacity (some _)) rest = _
      have h2b : capacity (some (writeBuses (silentBlock n).blocksize
          ((activeCall n).env.process (mappedProcessData (activeCall n).env data
            (activeCall n).inputs (silentBlock n)) (activeCall n).inputs (silentBlock n)
            (growStatics statics (silentBlock n).blocksize)).written
          (mappedProcessData (activeCall n).env data (activeCall n).inputs
            (silentBlock n)).outputs 0
          { host := (silentBlock n).samples.getD [],
            silent := (growStatics statics (silentBlock n).blocksize).silentOutputBuffer.getD
              [] }).silent) = max (capacity statics.silentOutputBuffer) n := h2
      rw [h2b]

/-- C11: for a call of `_processVst3Audio` that takes the mapped path (the plugin is invoked)
with block size `n`, made after any sequence of earlier calls, the capacity of each
silent scratch buffer after the call, that is the number of samples allocated for it,
is the maximum of its prior capacity (0 when no buffer exists yet) and `n`, and the
recorded size is that capacity; the plugin is invoked on the grown buffers, which
already have that capacity, and a buffer that is (re)allocated in the call (none
before, or smaller than `n`) holds `n` zero samples at that moment; in whatever calls
follow, neither capacity shrinks, so each stays at least every block size seen so far.
Block sizes 256 then 1024 give capacities 256 then 1024; 1024 then 256 leave 1024. -/
theorem silentBuffers_growth (earlier : List ProcessCall) (env : ProcessEnv)
    (statics : SilentBuffers) (plugin : Plugin)
    (inputs : Option SampleBuffer) (o : SampleBuffer) (out : ProcessOutcome)
    (hearlier : processCalls SilentBuffers.init earlier = some statics)
    (hcall : _processVst3Audio env statics plugin inputs (some o) = some out)
    (hmapped : pluginCalled out.events = true) :
    capacity out.statics.silentInputBuffer =
      max (capacity statics.silentInputBuffer) o.blocksize ∧
    capacity out.statics.silentOutputBuffer =
      max (capacity statics.silentOutputBuffer) o.blocksize ∧
    out.statics.silentInputBufferSize = capacity out.statics.silentInputBuffer ∧
    out.statics.silentOutputBufferSize = capacity out.statics.silentOutputBuffer ∧
    (∃ data, plugin.extraData = some data ∧
      out.events.head? = some (ProcessEvent.process (mappedProcessData env data inputs o)
        (env.process (mappedProcessData env data inputs o) inputs o
          (growStatics statics o.blocksize)).result)) ∧
    capacity (growStatics statics o.blocksize).silentInputBuffer =
      max (capacity statics.silentInputBuffer) o.blocksize ∧
    capacity (growStatics statics o.blocksize).silentOutputBuffer =
      max (capacity statics.silentOutputBuffer) o.blocksize ∧
    ((statics.silentInputBuffer = none ∨
        capacity statics.silentInputBuffer < o.blocksize) →
      (growStatics statics o.blocksize).silentInputBuffer =
        some (List.replicate o.blocksize 0)) ∧
    ((statics.silentOutputBuffer = none ∨
        capacity statics.silentOutputBuffer < o.blocksize) →
      (growStatics statics o.blocksize).silentOutputBuffer =
        some (List.replicate o.blocksize 0)) ∧
    (∀ later final, processCalls out.statics later = some final →
      capacity out.statics.silentInputBuffer ≤ capacity final.silentInputBuffer ∧
      capacity out.statics.silentOutputBuffer ≤ capacity final.silentOutputBuffer) ∧
    (processCalls SilentBuffers.init [activeCall 256]).map
      (fun s => (capacity s.silentInputBuffer, capacity s.silentOutputBuffer)) =
        some (256, 256) ∧
    (processCalls SilentBuffers.init [activeCall 256, activeCall 1024]).map
      (fun s => (capacity s.silentInputBuffer, capacity s.silentOutputBuffer)) =
        some (1024, 1024) ∧
    (processCalls SilentBuffers.init [activeCall 1024]).map
      (fun s => (capacity s.silentInputBuffer, capacity s.silentOutputBuffer)) =
        some (1024, 1024) ∧
    (processCalls SilentBuffers.init [activeCall 1024, activeCall 256]).map
      (fun s => (capacity s.silentInputBuffer, capacity s.silentOutputBuffer)) =
        some (1024, 1024) := by
  have hrec : sizesRecorded statics :=
    (processCalls_sizes earlier SilentBuffers.init statics hearlier sizesRecorded_init).1
  obtain ⟨data, hd, hev, hs⟩ := processVst3Audio_mapped env statics plugin inputs o out
    hcall hmapped
  obtain ⟨h1, h2, h3, h4, h5⟩ := mapped_statics_capacity statics o.blocksize
    (env.process (mappedProcessData env data inputs o) inputs o
      (growStatics statics o.blocksize)).written
    (mappedProcessData env data inputs o).outputs (o.samples.getD []) hrec
  have hi := capacity_growSilentBuffer statics.silentInputBuffer
    statics.silentInputBufferSize o.blocksize hrec.1
  have ho := capacity_growSilentBuffer statics.silentOutputBuffer
    statics.silentOutputBufferSize o.blocksize hrec.2
  have hrecOut : sizesRecorded out.statics :=
    (processVst3Audio_sizes env statics plugin inputs (some o) out hcall hrec).1
  have hseq : ∀ ns : List Nat,
      (processCalls SilentBuffers.init (ns.map activeCall)).map
        (fun s => (capacity s.silentInputBuffer, capacity s.silentOutputBuffer)) =
        some (ns.foldl max 0, ns.foldl max 0) := by
    intro ns
    obtain ⟨final, hfinal, hin, hout⟩ :=
      activeCalls_capacity ns SilentBuffers.init sizesRecorded_init
    rw [hfinal, Option.map_some', hin, hout]
    rfl
  refine ⟨?_, ?_, hrecOut.1, hrecOut.2, ⟨data, hd, hev⟩, h1, h5, hi.2.2, ho.2.2,
    fun later final hl => (processCalls_sizes later out.statics final hl hrecOut).2,
    hseq [256], hseq [256, 1024], hseq [1024], hseq [1024, 256]⟩
  · rw [hs]
    exact h1
  · rw [hs]
    exact h2

/-- Witness of `silentBuffers_growth`: the first mapped call, with block size 1. -/
theorem silentBuffers_growth_witness :
    processCalls SilentBuffers.init [] = some SilentBuffers.init ∧
    _processVst3Audio exampleProcessEnv SilentBuffers.init activePlugin
        (some (monoBuffer 5)) (some (monoBuffer 0)) = some exampleOutcome ∧
    pluginCalled exampleOutcome.events = true ∧
    capacity exampleOutcome.statics.silentInputBuffer =
      max (capacity SilentBuffers.init.silentInputBuffer) (monoBuffer 0).blocksize :=
  ⟨rfl, by decide, by decide,
   (silentBuffers_growth [] exampleProcessEnv SilentBuffers.init activePlugin
      (some (monoBuffer 5)) (monoBuffer 0) exampleOutcome rfl (by decide) (by decide)).1⟩

/-! ## Bus activation during open -/

/-- A successful open of data that is not yet initialized went through every step: the
library and the factory were obtained, a class was selected, its component was created
and initialized, and the rest of the sequence ran. -/
theorem openVst3Plugin_success_path (env : OpenEnv) (plugin : Plugin)
    (data : PluginVst3DataMembers)
    (hdata : plugin.extraData = some data) (hflag : data.isInitialized = false)
    (hsuccess : (_openVst3Plugin env plugin).success = true) :
    ∃ library factory idx classInfo component,
      env.getLibraryHandleForVst3Plugin = some library ∧
      env.getVst3PluginFactory = some factory ∧
      env.countClasses ≠ 0 ∧
      selectClass env = some (idx, classInfo) ∧
      env.createInstance classInfo.cid = (kResultOk, some component) ∧
      env.initComponentResult = kResultOk ∧
      _openVst3Plugin env plugin =
        openInitialized env plugin
          { data with libraryHandle := some library, pluginFactory := some factory,
                      pluginInstance := some component }
          [Vst3Call.getLibraryHandle, Vst3Call.getPluginFactory,
           Vst3Call.createInstance classInfo.cid, Vst3Call.initComponent] := by
  have hs := hsuccess
  unfold _openVst3Plugin at hs
  rw [hdata] at hs
  simp only [hflag, Bool.false_eq_true, if_false] at hs
  by_cases hfile : (env.fileExistsAtName || env.fileExistsInLocation) = true
  · simp only [hfile, Bool.not_true, Bool.false_eq_true, if_false] at hs
    cases hlib : env.getLibraryHandleForVst3Plugin with
    | none => simp [hlib] at hs
    | some library =>
      cases hfac : env.getVst3PluginFactory with
      | none => simp [hlib, hfac] at hs
      | some factory =>
        simp only [hlib, hfac] at hs
        unfold openWithFactory at hs
        by_cases hcount : env.countClasses = 0
        · simp [hcount] at hs
        · simp only [hcount, if_false] at hs
          cases hclass : selectClass env with
          | none => simp [hclass] at hs
          | some found =>
            obtain ⟨idx, classInfo⟩ := found
            simp only [hclass] at hs
            cases hc2 : (env.createInstance classInfo.cid).2 with
            | none => simp [hc2] at hs
            | some component =>
              simp only [hc2] at hs
              by_cases hc1 : (env.createInstance classInfo.cid).1 = kResultOk
              · by_cases hinit : env.initComponentResult = kResultOk
                · refine ⟨library, factory, idx, classInfo, component, rfl, rfl, hcount, rfl,
                    ?_, hinit, ?_⟩
                  · rw [← hc1, ← hc2]
                  · unfold _openVst3Plugin openWithFactory
                    simp [hdata, hflag, hfile, hlib, hfac, hcount, hclass, hc1, hc2, hinit]
                · simp [hc1, hinit] at hs
              · simp [hc1] at hs
  · simp [hfile] at hs

theorem mem_activateBuses (env : OpenEnv) (direction d : BusDirection) (busCount : Int)
    (i : Nat) :
    Vst3Call.activateBus d i ∈ activateBuses env direction busCount ↔
      d = direction ∧ (i : Int) < busCount ∧ (env.getBusInfo direction i).isSome = true := by
  unfold activateBuses
  rw [List.mem_filterMap]
  constructor
  · rintro ⟨j, hj, hsome⟩
    rw [List.mem_range] at hj
    cases hinfo : env.getBusInfo direction j with
    | none => simp [hinfo] at hsome
    | some b =>
      simp only [hinfo, Option.some.injEq, Vst3Call.activateBus.injEq] at hsome
      obtain ⟨h1, h2⟩ := hsome
      subst h1
      subst h2
      refine ⟨rfl, by omega, by simp [hinfo]⟩
  · rintro ⟨hd, hlt, hsome⟩
    subst hd
    refine ⟨i, by rw [List.mem_range]; omega, ?_⟩
    cases hinfo : env.getBusInfo d i with
    | none => simp [hinfo] at hsome
    | some b => rfl

/-- C12 (as the code has it): during a successful `_openVst3Plugin` of data that is not yet
initialized, for each direction and every bus index `i`, `activateBus` is called for
bus `i` exactly when `i` is below the bus count the component reports for that
direction and the bus-info query of bus `i` succeeds, and the recorded input and output
bus counts equal the reported counts; an open of data that is already initialized
returns success without any call and leaves the plugin object as it is. -/
theorem openVst3Plugin_activates (env : OpenEnv) (plugin : Plugin)
    (data : PluginVst3DataMembers) (hdata : plugin.extraData = some data) :
    (data.isInitialized = false → (_openVst3Plugin env plugin).success = true →
      (∀ direction i,
        Vst3Call.activateBus direction i ∈ (_openVst3Plugin env plugin).calls ↔
          ((i : Int) < env.getBusCount MediaType.kAudio direction ∧
            (env.getBusInfo direction i).isSome = true)) ∧
      ∃ data1, (_openVst3Plugin env plugin).plugin.extraData = some data1 ∧
        data1.inputBusCount = env.getBusCount MediaType.kAudio BusDirection.kInput ∧
        data1.outputBusCount = env.getBusCount MediaType.kAudio BusDirection.kOutput) ∧
    (data.isInitialized = true →
      (_openVst3Plugin env plugin).success = true ∧
      (_openVst3Plugin env plugin).calls = [] ∧
      (_openVst3Plugin env plugin).plugin = plugin) := by
  constructor
  · intro hflag hsuccess
    obtain ⟨library, factory, idx, classInfo, component, _, _, _, _, _, _, hopen⟩ :=
      openVst3Plugin_success_path env plugin data hdata hflag hsuccess
    rw [hopen]
    refine ⟨?_, ⟨_, rfl, rfl, rfl⟩⟩
    intro direction i
    simp only [openInitialized, List.mem_append, List.mem_cons, List.mem_singleton,
      mem_activateBuses, reduceCtorEq, List.not_mem_nil, or_false, false_or]
    constructor
    · intro h
      rcases h with (h | h) | h
      · rcases h with ⟨hd, h1, h2⟩
        subst hd
        exact ⟨h1, h2⟩
      · rcases h with ⟨hd, h1, h2⟩
        subst hd
        exact ⟨h1, h2⟩
      · split at h <;> simp at h
    · intro ⟨h1, h2⟩
      cases direction with
      | kInput => exact Or.inl (Or.inl ⟨rfl, h1, h2⟩)
      | kOutput => exact Or.inl (Or.inr ⟨rfl, h1, h2⟩)
  · intro hflag
    unfold _openVst3Plugin
    rw [hdata]
    simp [hflag]

/-- Witness of `openVst3Plugin_activates`: a fresh plugin object and a plugin binary with
one input and one output bus; its successful open activates input bus 0 and output
bus 0 and records the counts 1 and 1. -/
theorem openVst3Plugin_activates_witness :
    freshPlugin.extraData = some newPluginVst3Data ∧
    newPluginVst3Data.isInitialized = false ∧
    (_openVst3Plugin exampleOpenEnv freshPlugin).success = true ∧
    (∀ direction i,
      Vst3Call.activateBus direction i ∈ (_openVst3Plugin exampleOpenEnv freshPlugin).calls ↔
        ((i : Int) < exampleOpenEnv.getBusCount MediaType.kAudio direction ∧
          (exampleOpenEnv.getBusInfo direction i).isSome = true)) ∧
    ∃ data1, (_openVst3Plugin exampleOpenEnv freshPlugin).plugin.extraData = some data1 ∧
      data1.inputBusCount = exampleOpenEnv.getBusCount MediaType.kAudio BusDirection.kInput ∧
      data1.outputBusCount =
        exampleOpenEnv.getBusCount MediaType.kAudio BusDirection.kOutput :=
  ⟨rfl, rfl, by decide,
   (openVst3Plugin_activates exampleOpenEnv freshPlugin newPluginVst3Data rfl).1 rfl
     (by decide)⟩

/-- C12 fails for a bus whose bus-info query fails: the component reports one input bus,
the query for it fails, open succeeds and records the count 1, and `activateBus` is
not called for input bus 0. It also fails for an open of an already initialized
instance, which returns success without calling anything. -/
theorem openVst3Plugin_unqueried_bus_counterexample :
    (_openVst3Plugin { exampleOpenEnv with getBusInfo := fun _ _ => none }
      freshPlugin).success = true ∧
    exampleOpenEnv.getBusCount MediaType.kAudio BusDirection.kInput = 1 ∧
    Vst3Call.activateBus BusDirection.kInput 0 ∉
      (_openVst3Plugin { exampleOpenEnv with getBusInfo := fun _ _ => none }
        freshPlugin).calls ∧
    (_openVst3Plugin exampleOpenEnv activePlugin).success = true ∧
    (_openVst3Plugin exampleOpenEnv activePlugin).calls = [] := by
  decide


/-! ## The handle invariant -/

theorem hostRun_reachable (calls : List HostCall) (st final : HostState)
    (hst : Reachable st.plugin) (hrun : hostRun st calls = some final) :
    Reachable final.plugin := by
  induction calls generalizing st with
  | nil =>
    simp only [hostRun, Option.some.injEq] at hrun
    rw [← hrun]
    exact hst
  | cons c rest ih =>
    simp only [hostRun] at hrun
    cases hc : hostStep st c with
    | none => simp [hc] at hrun
    | some st1 =>
      simp only [hc] at hrun
      refine ih st1 ?_ hrun
      cases c with
      | openPlugin env =>
        simp only [hostStep, Option.some.injEq] at hc
        rw [← hc]
        exact Reachable.openPlugin env st.plugin hst
      | processAudio env inputs outputs =>
        simp only [hostStep] at hc
        split at hc
        · simp only [Option.some.injEq] at hc
          rw [← hc]
          exact hst
        · cases hc
      | getSetting env setting =>
        simp only [hostStep, Option.some.injEq] at hc
        rw [← hc]
        exact hst
      | closePlugin =>
        simp only [hostStep, Option.some.injEq] at hc
        rw [← hc]
        exact Reachable.closePlugin st.plugin hst

/-- C13: in every state reached from a plugin object made by `newPluginVst3` through any
sequence of open, process, query and close calls, the component handle is non-null
only if the initialization flag is true, and the audio processor handle is non-null
only if the component handle is non-null. -/
theorem hostRun_handles (pluginVst3Exists allocated : Bool) (plugin : Plugin)
    (statics : SilentBuffers) (calls : List HostCall) (final : HostState)
    (hnew : newPluginVst3 pluginVst3Exists allocated = some plugin)
    (hrun : hostRun { plugin := plugin, statics := statics } calls = some final) :
    ∀ data, final.plugin.extraData = some data →
      (data.pluginInstance ≠ none → data.isInitialized = true) ∧
      (data.audioProcessor ≠ none → data.pluginInstance ≠ none) :=
  reachable_consistent final.plugin
    (hostRun_reachable calls { plugin := plugin, statics := statics } final
      (Reachable.create pluginVst3Exists allocated plugin hnew) hrun)

/-- Witness of `hostRun_handles`: open, one processed block, a settings query. -/
theorem hostRun_handles_witness :
    newPluginVst3 true true = some freshPlugin ∧
    hostRun { plugin := freshPlugin, statics := SilentBuffers.init }
      [HostCall.openPlugin exampleOpenEnv,
       HostCall.processAudio exampleProcessEnv (some (monoBuffer 5)) (some (monoBuffer 0)),
       HostCall.getSetting exampleSettingEnv PluginSetting.PLUGIN_NUM_INPUTS] =
      some { plugin := { activePlugin with pluginType := PluginType.PLUGIN_TYPE_INSTRUMENT },
             statics := exampleOutcome.statics } ∧
    ∀ data, activePlugin.extraData = some data →
      (data.pluginInstance ≠ none → data.isInitialized = true) ∧
      (data.audioProcessor ≠ none → data.pluginInstance ≠ none) :=
  ⟨by decide, by decide,
   hostRun_handles true true freshPlugin SilentBuffers.init
     [HostCall.openPlugin exampleOpenEnv,
      HostCall.processAudio exampleProcessEnv (some (monoBuffer 5)) (some (monoBuffer 0)),
      HostCall.getSetting exampleSettingEnv PluginSetting.PLUGIN_NUM_INPUTS]
     { plugin := { activePlugin with pluginType := PluginType.PLUGIN_TYPE_INSTRUMENT },
       statics := exampleOutcome.statics }
     (by decide) (by decide)⟩


/-! ## Class selection -/

theorem findAudioModuleClass_first (g : Nat → Option PClassInfo) (n s i : Nat)
    (c : PClassInfo) (hs : s ≤ i) (hi : i < s + n) (hg : g i = some c)
    (hcat : c.category = "Audio Module Class")
    (hmin : ∀ j c1, s ≤ j → j < i → g j = some c1 → c1.category ≠ "Audio Module Class") :
    findAudioModuleClass g (List.range' s n) = some (i, c) := by
  induction n generalizing s with
  | zero => omega
  | succ n ih =>
    rw [List.range'_succ, findAudioModuleClass]
    by_cases hsi : s = i
    · subst hsi
      simp [hg, hcat]
    · have hrec := ih (s + 1) (by omega) (by omega)
        (fun j c1 h1 h2 => hmin j c1 (by omega) h2)
      cases hgs : g s with
      | none => simpa using hrec
      | some c1 =>
        have hne := hmin s c1 (Nat.le_refl _) (by omega) hgs
        simpa [hne] using hrec

theorem findAudioModuleClass_none (g : Nat → Option PClassInfo) (n s : Nat)
    (hno : ∀ j c1, s ≤ j → j < s + n → g j = some c1 →
      c1.category ≠ "Audio Module Class") :
    findAudioModuleClass g (List.range' s n) = none := by
  induction n generalizing s with
  | zero => rfl
  | succ n ih =>
    rw [List.range'_succ, findAudioModuleClass]
    have hrec := ih (s + 1) (fun j c1 h1 h2 => hno j c1 (by omega) (by omega))
    cases hgs : g s with
    | none => simpa using hrec
    | some c1 =>
      have hne := hno s c1 (Nat.le_refl _) (by omega) hgs
      simpa [hne] using hrec

theorem createInstance_not_mem_activateBuses (env : OpenEnv) (direction : BusDirection)
    (busCount : Int) (cid : Nat) :
    Vst3Call.createInstance cid ∉ activateBuses env direction busCount := by
  unfold activateBuses
  rw [List.mem_filterMap]
  rintro ⟨j, _, hsome⟩
  cases hinfo : env.getBusInfo direction j with
  | none => simp [hinfo] at hsome
  | some b => simp [hinfo] at hsome

/-- C14: for a factory with at least one class, the class selected is the lowest-index class
below the class count whose info is retrieved and whose category is
"Audio Module Class"; when no class is such, it is class 0; selection fails only if
the info of class 0 cannot be retrieved; and the component is created from the `cid`
of the selected class. -/
theorem selectClass_lowest (env : OpenEnv) (hcount : 0 < env.countClasses) :
    (∀ (i : Nat) (c : PClassInfo), (i : Int) < env.countClasses →
      env.getClassInfo i = some c → c.category = "Audio Module Class" →
      (∀ (j : Nat) (c1 : PClassInfo), j < i → env.getClassInfo j = some c1 →
        c1.category ≠ "Audio Module Class") →
      selectClass env = some (i, c)) ∧
    ((∀ (i : Nat) (c : PClassInfo), (i : Int) < env.countClasses →
        env.getClassInfo i = some c → c.category ≠ "Audio Module Class") →
      selectClass env = (env.getClassInfo 0).map (fun c => (0, c))) ∧
    (selectClass env = none → env.getClassInfo 0 = none) ∧
    (∀ plugin data library factory idx c,
      plugin.extraData = some data → data.isInitialized = false →
      (env.fileExistsAtName = true ∨ env.fileExistsInLocation = true) →
      env.getLibraryHandleForVst3Plugin = some library →
      env.getVst3PluginFactory = some factory →
      selectClass env = some (idx, c) →
      Vst3Call.createInstance c.cid ∈ (_openVst3Plugin env plugin).calls ∧
      ∀ cid, Vst3Call.createInstance cid ∈ (_openVst3Plugin env plugin).calls →
        cid = c.cid) := by
  refine ⟨?_, ?_, ?_, ?_⟩
  · intro i c hi hg hcat hmin
    unfold selectClass
    rw [List.range_eq_range', findAudioModuleClass_first env.getClassInfo _ 0 i c
      (Nat.zero_le _) (by omega) hg hcat (fun j c1 _ h2 => hmin j c1 h2)]
  · intro hno
    unfold selectClass
    rw [List.range_eq_range', findAudioModuleClass_none env.getClassInfo _ 0
      (fun j c1 _ h2 => hno j c1 (by omega))]
    cases env.getClassInfo 0 <;> rfl
  · intro h
    unfold selectClass at h
    split at h
    · cases h
    · split at h
      · cases h
      · assumption
  · intro plugin data library factory idx c hdata hflag hfile hlib hfac hclass
    have hfile2 : (env.fileExistsAtName || env.fileExistsInLocation) = true := by
      cases hfile with
      | inl h => simp [h]
      | inr h => simp [h]
    have hne : env.countClasses ≠ 0 := by omega
    unfold _openVst3Plugin
    rw [hdata]
    simp only [hflag, hfile2, hlib, hfac, Bool.not_true, Bool.false_eq_true, if_false]
    unfold openWithFactory
    simp only [hne, hclass, if_false]
    split
    · simp
    · split
      · simp
      · split
        · simp
        · simp only [openInitialized, List.mem_append, List.mem_cons, List.mem_singleton,
            createInstance_not_mem_activateBuses, reduceCtorEq, List.not_mem_nil, or_false,
            false_or, Vst3Call.createInstance.injEq]
          constructor
          · simp
          · intro cid h
            rcases h with h | h
            · exact h
            · split at h <;> simp at h

/-- Witness of `selectClass_lowest`: with an edit controller at index 0 and the audio module
at index 1, class 1 is selected. -/
theorem selectClass_lowest_witness :
    0 < ({ exampleOpenEnv with
        countClasses := 2, getClassInfo := twoClassGetClassInfo } : OpenEnv).countClasses ∧
    selectClass { exampleOpenEnv with
        countClasses := 2, getClassInfo := twoClassGetClassInfo } =
      some (1, audioModuleClassInfo) :=
  ⟨by decide,
   (selectClass_lowest { exampleOpenEnv with
        countClasses := 2, getClassInfo := twoClassGetClassInfo } (by decide)).1
      1 audioModuleClassInfo (by decide) (by decide) (by decide)
      (fun j c1 hj hg => by
        have hj0 : j = 0 := by omega
        subst hj0
        have hc : c1 = controllerClassInfo := by
          simpa [twoClassGetClassInfo] using hg.symm
        rw [hc]
        decide)⟩

/-! ## Channel counts and latency reported by the settings query -/

theorem toInt32_of_lt (x : Int) (h0 : 0 ≤ x) (h1 : x < 2 ^ 31) : toInt32 x = x := by
  unfold toInt32
  omega

theorem countChannels_fold (g : Nat → Option BusInfo) (l : List Nat) (a : Nat)
    (h : a + declaredChannels (l.map g) < 2 ^ 31) :
    l.foldl (fun (n : Int) i =>
        match g i with
        | some busInfo => toInt32 (n + busInfo.channelCount)
        | none => n) (a : Int) = ((a + declaredChannels (l.map g) : Nat) : Int) := by
  induction l generalizing a with
  | nil => simp [declaredChannels]
  | cons i rest ih =>
    rw [List.foldl_cons]
    cases hg : g i with
    | none =>
      have h2 : a + declaredChannels (rest.map g) < 2 ^ 31 := by
        simpa [declaredChannels, hg] using h
      simp only []
      rw [ih a h2]
      simp [declaredChannels, hg]
    | some b =>
      have h2 : (a + b.channelCount) + declaredChannels (rest.map g) < 2 ^ 31 := by
        simp only [declaredChannels, List.map_cons, List.sum_cons, hg] at h ⊢
        omega
      have h3 : toInt32 ((a : Int) + (b.channelCount : Int)) = ((a + b.channelCount : Nat) : Int) := by
        rw [toInt32_of_lt _ (by omega) (by omega)]
        omega
      simp only []
      rw [h3, ih (a + b.channelCount) h2]
      simp only [declaredChannels, List.map_cons, List.sum_cons, hg]
      omega

theorem countChannels_eq_declared (env : SettingEnv) (direction : BusDirection)
    (h : declaredChannels ((List.range (env.getBusCount direction).toNat).map
        (env.getBusInfo direction)) < 2 ^ 31) :
    countChannels env direction =
      (declaredChannels ((List.range (env.getBusCount direction).toNat).map
        (env.getBusInfo direction)) : Int) := by
  unfold countChannels
  have := countChannels_fold (env.getBusInfo direction)
    (List.range (env.getBusCount direction).toNat) 0 (by omega)
  simpa using this

/-- C15 (as the code has it): for an initialized instance with a component, the query for the
number of input (output) channels returns the sum of the declared channel counts over
the audio buses of that direction whose bus-info query succeeds when that sum is
positive and below 2^31, and 2 when the sum is 0; the count is accumulated in a 32-bit
signed integer, and in every case the reported channel count is at least 1. The
initial-delay query returns the latency the processor reports, converted to a 32-bit
signed integer, when the processor handle is non-null (the reported latency itself when
that is below 2^31), and 0 otherwise; the tail-time query returns 0, for this and every
other plugin object. -/
theorem getVst3Setting_channels (env : SettingEnv) (plugin : Plugin)
    (data : PluginVst3DataMembers) (component : Handle)
    (hdata : plugin.extraData = some data) (hflag : data.isInitialized = true)
    (hinst : data.pluginInstance = some component) :
    (declaredChannels ((List.range (env.getBusCount BusDirection.kInput).toNat).map
        (env.getBusInfo BusDirection.kInput)) < 2 ^ 31 →
      _getVst3Setting env plugin PluginSetting.PLUGIN_NUM_INPUTS =
        (if 0 < declaredChannels ((List.range (env.getBusCount BusDirection.kInput).toNat).map
              (env.getBusInfo BusDirection.kInput))
         then (declaredChannels ((List.range (env.getBusCount BusDirection.kInput).toNat).map
              (env.getBusInfo BusDirection.kInput)) : Int)
         else 2)) ∧
    (declaredChannels ((List.range (env.getBusCount BusDirection.kOutput).toNat).map
        (env.getBusInfo BusDirection.kOutput)) < 2 ^ 31 →
      _getVst3Setting env plugin PluginSetting.PLUGIN_NUM_OUTPUTS =
        (if 0 < declaredChannels ((List.range (env.getBusCount BusDirection.kOutput).toNat).map
              (env.getBusInfo BusDirection.kOutput))
         then (declaredChannels ((List.range (env.getBusCount BusDirection.kOutput).toNat).map
              (env.getBusInfo BusDirection.kOutput)) : Int)
         else 2)) ∧
    _getVst3Setting env plugin PluginSetting.PLUGIN_NUM_INPUTS =
      (if countChannels env BusDirection.kInput > 0
        then countChannels env BusDirection.kInput else 2) ∧
    _getVst3Setting env plugin PluginSetting.PLUGIN_NUM_OUTPUTS =
      (if countChannels env BusDirection.kOutput > 0
        then countChannels env BusDirection.kOutput else 2) ∧
    1 ≤ _getVst3Setting env plugin PluginSetting.PLUGIN_NUM_INPUTS ∧
    1 ≤ _getVst3Setting env plugin PluginSetting.PLUGIN_NUM_OUTPUTS ∧
    (data.audioProcessor ≠ none →
      _getVst3Setting env plugin PluginSetting.PLUGIN_INITIAL_DELAY =
        toInt32 (env.getLatencySamples : Int)) ∧
    (data.audioProcessor ≠ none → env.getLatencySamples < 2 ^ 31 →
      _getVst3Setting env plugin PluginSetting.PLUGIN_INITIAL_DELAY =
        (env.getLatencySamples : Int)) ∧
    (data.audioProcessor = none →
      _getVst3Setting env plugin PluginSetting.PLUGIN_INITIAL_DELAY = 0) ∧
    (∀ anyPlugin, _getVst3Setting env anyPlugin
      PluginSetting.PLUGIN_SETTING_TAIL_TIME_IN_MS = 0) := by
  have h1 : _getVst3Setting env plugin PluginSetting.PLUGIN_NUM_INPUTS =
      (if countChannels env BusDirection.kInput > 0
        then countChannels env BusDirection.kInput else 2) := by
    simp [_getVst3Setting, hdata, hflag, hinst]
  have h2 : _getVst3Setting env plugin PluginSetting.PLUGIN_NUM_OUTPUTS =
      (if countChannels env BusDirection.kOutput > 0
        then countChannels env BusDirection.kOutput else 2) := by
    simp [_getVst3Setting, hdata, hflag, hinst]
  have hdelay : data.audioProcessor ≠ none →
      _getVst3Setting env plugin PluginSetting.PLUGIN_INITIAL_DELAY =
        toInt32 (env.getLatencySamples : Int) := by
    intro hproc
    cases hp : data.audioProcessor with
    | none => exact absurd hp hproc
    | some p => simp [_getVst3Setting, hdata, hflag, hinst, hp]
  refine ⟨?_, ?_, h1, h2, ?_, ?_, hdelay, ?_, ?_, ?_⟩
  · intro hlt
    rw [h1, countChannels_eq_declared env BusDirection.kInput hlt]
    split <;> split <;> omega
  · intro hlt
    rw [h2, countChannels_eq_declared env BusDirection.kOutput hlt]
    split <;> split <;> omega
  · rw [h1]
    split <;> omega
  · rw [h2]
    split <;> omega
  · intro hproc hlt
    rw [hdelay hproc, toInt32_of_lt _ (by omega) (by omega)]
  · intro hproc
    simp [_getVst3Setting, hdata, hflag, hinst, hproc]
  · intro anyPlugin
    unfold _getVst3Setting
    cases anyPlugin.extraData with
    | none => rfl
    | some d =>
      simp only
      split
      · rfl
      · split <;> rfl

/-- Witness of `getVst3Setting_channels`: an opened plugin object whose buses declare one
input channel and four output channels and whose processor reports 64 samples. -/
theorem getVst3Setting_channels_witness :
    _getVst3Setting exampleSettingEnv activePlugin PluginSetting.PLUGIN_NUM_INPUTS = 1 ∧
    _getVst3Setting exampleSettingEnv activePlugin PluginSetting.PLUGIN_NUM_OUTPUTS = 4 ∧
    _getVst3Setting exampleSettingEnv activePlugin PluginSetting.PLUGIN_INITIAL_DELAY = 64 ∧
    1 ≤ _getVst3Setting exampleSettingEnv activePlugin PluginSetting.PLUGIN_NUM_INPUTS :=
  ⟨by decide, by decide, by decide,
   (getVst3Setting_channels exampleSettingEnv activePlugin
      { libraryHandle := some 1, pluginFactory := some 2, pluginInstance := some 3,
        audioProcessor := some 4, isInitialized := true, inputBusCount := 1,
        outputBusCount := 1, hostApplication := none } 3 rfl rfl rfl).2.2.2.2.1⟩

/-- C15 fails where a value does not fit a 32-bit signed integer: with two input buses of
2^30 channels each the declared sum is 2^31, which is positive, and the query for the
number of input channels returns 2; with a reported latency of 2^32 - 1 samples the
initial-delay query returns -1. -/
theorem getVst3Setting_wraps_counterexample :
    declaredChannels ((List.range (hugeSettingEnv.getBusCount BusDirection.kInput).toNat).map
      (hugeSettingEnv.getBusInfo BusDirection.kInput)) = 2 ^ 31 ∧
    _getVst3Setting hugeSettingEnv activePlugin PluginSetting.PLUGIN_NUM_INPUTS = 2 ∧
    hugeSettingEnv.getLatencySamples = 4294967295 ∧
    _getVst3Setting hugeSettingEnv activePlugin PluginSetting.PLUGIN_INITIAL_DELAY = -1 := by
  decide

/-! ## No aliasing of host channels -/

theorem boundHostChannels_append (l : List AudioBusBuffers) (b : AudioBusBuffers) :
    boundHostChannels (l ++ [b]) = boundHostChannels l ++
      (match b.channelBuffers32 with
       | some ptrs => ptrs.filterMap hostChannel
       | none => []) := by
  induction l with
  | nil => simp [boundHostChannels]
  | cons x xs ih => simp [boundHostChannels, ih]

/-- The host channels of a pointer array whose slot `ch` is host channel `off + ch` while
that is below `N` are the channels from `off` up to the host count. -/
theorem hostChannels_of_slots (mk : Nat → ChannelPtr) (sil : ChannelPtr)
    (hmk : ∀ c, hostChannel (mk c) = some c) (hsil : hostChannel sil = none)
    (N off n : Nat) :
    ((List.range n).map (fun ch => if off + ch < N then mk (off + ch) else sil)).filterMap
      hostChannel = List.range' off (min n (N - off)) := by
  induction n with
  | zero => simp
  | succ n ih =>
    rw [List.range_succ, List.map_append, List.filterMap_append, ih]
    by_cases h : off + n < N
    · have h1 : min n (N - off) = n := by omega
      have h2 : min (n + 1) (N - off) = n + 1 := by omega
      rw [h1, h2, List.range'_concat]
      simp [h, hmk]
    · have h1 : min (n + 1) (N - off) = min n (N - off) := by omega
      rw [h1]
      simp [h, hsil]

theorem outputChannelLoop_eq_map (N off count : Nat) :
    outputChannelLoop N off count =
      (List.range count).map (fun ch =>
        if off + ch < N then ChannelPtr.hostOutput (off + ch) else ChannelPtr.silentOutput) := by
  apply List.ext_getElem?
  intro ch
  by_cases hch : ch < count
  · rw [outputChannelLoop_getElem N off count ch hch]
    simp [List.getElem?_map, List.getElem?_range hch]
  · rw [List.getElem?_eq_none (by rw [outputChannelLoop_length]; omega),
      List.getElem?_eq_none (by simp; omega)]

theorem inputChannelLoop_eq_map (N off count : Nat) :
    (inputChannelLoop N off count).1 =
      (List.range count).map (fun ch =>
        if off + ch < N then ChannelPtr.hostInput (off + ch) else ChannelPtr.silentInput) := by
  obtain ⟨hlen, hptr, _⟩ := inputChannelLoop_upTo N off count count (Nat.le_refl _)
  apply List.ext_getElem?
  intro ch
  by_cases hch : ch < count
  · unfold inputChannelLoop
    rw [hptr ch hch]
    simp [List.getElem?_map, List.getElem?_range hch]
  · rw [List.getElem?_eq_none (by unfold inputChannelLoop; rw [hlen]; omega),
      List.getElem?_eq_none (by simp; omega)]

theorem range_append_range' (N D m : Nat) :
    List.range (min N D) ++ List.range' D (min m (N - D)) = List.range (min N (D + m)) := by
  by_cases h : N ≤ D
  · have h1 : min N D = N := by omega
    have h2 : min m (N - D) = 0 := by omega
    have h3 : min N (D + m) = N := by omega
    rw [h1, h2, h3]
    simp
  · have h1 : min N D = D := by omega
    have h3 : min N (D + m) = D + min m (N - D) := by omega
    rw [h1, h3, List.range_eq_range', List.range_eq_range']
    have := List.range'_append 0 D (min m (N - D)) 1
    simp only [Nat.zero_add, Nat.one_mul] at this
    rw [this, Nat.add_comm]

theorem inputBusLoop_bound (infos : List (Option BusInfo)) (N : Nat) :
    boundHostChannels (inputBusLoop infos N).1 =
      List.range (min N (declaredChannels infos)) := by
  induction infos using List.reverseRecOn with
  | nil => simp [inputBusLoop, boundHostChannels, declaredChannels]
  | append_singleton l info ih =>
    have hoff : (inputBusLoop l N).2 = declaredChannels l := by
      have := inputBusLoop_offset N l ([], 0)
      simpa [inputBusLoop] using this
    have hstep : inputBusLoop (l ++ [info]) N = inputBusStep N (inputBusLoop l N) info := by
      simp [inputBusLoop, List.foldl_append]
    rw [hstep]
    cases info with
    | none =>
      simp only [inputBusStep]
      rw [boundHostChannels_append, ih]
      simp [declaredChannels]
    | some b =>
      simp only [inputBusStep]
      rw [boundHostChannels_append, ih]
      simp only
      rw [hoff, inputChannelLoop_eq_map,
        hostChannels_of_slots ChannelPtr.hostInput ChannelPtr.silentInput
          (fun _ => rfl) rfl, range_append_range']
      simp [declaredChannels]

theorem outputBusLoop_bound (infos : List (Option BusInfo)) (N : Nat) :
    boundHostChannels (outputBusLoop infos N).1 =
      List.range (min N (declaredChannels infos)) := by
  induction infos using List.reverseRecOn with
  | nil => simp [outputBusLoop, boundHostChannels, declaredChannels]
  | append_singleton l info ih =>
    have hoff : (outputBusLoop l N).2 = declaredChannels l := by
      have := outputBusLoop_offset N l ([], 0)
      simpa [outputBusLoop] using this
    have hstep : outputBusLoop (l ++ [info]) N = outputBusStep N (outputBusLoop l N) info := by
      simp [outputBusLoop, List.foldl_append]
    rw [hstep]
    cases info with
    | none =>
      simp only [outputBusStep]
      rw [boundHostChannels_append, ih]
      simp [declaredChannels]
    | some b =>
      simp only [outputBusStep]
      rw [boundHostChannels_append, ih]
      simp only
      rw [hoff, outputChannelLoop_eq_map,
        hostChannels_of_slots ChannelPtr.hostOutput ChannelPtr.silentOutput
          (fun _ => rfl) rfl, range_append_range']
      simp [declaredChannels]

theorem declaredChannels_take_lt (infos : List (Option BusInfo)) (k k1 : Nat) (b : BusInfo)
    (hk : infos[k]? = some (some b)) (hlt : k < k1) :
    declaredChannels (infos.take k) + b.channelCount ≤ declaredChannels (infos.take k1) := by
  have h1 : (infos.take k1)[k]? = some (some b) := by
    rw [List.getElem?_take_of_lt hlt, hk]
  have h2 := declaredChannels_take_le (infos.take k1) k b h1
  rw [List.take_take, Nat.min_eq_left (Nat.le_of_lt hlt)] at h2
  exact h2

/-- Two slots of buses whose queries succeeded that hold the same global position are the
same slot. -/
theorem slot_unique (infos : List (Option BusInfo)) (k ch k1 ch1 : Nat) (b b1 : BusInfo)
    (hk : infos[k]? = some (some b)) (hk1 : infos[k1]? = some (some b1))
    (hch : ch < b.channelCount) (hch1 : ch1 < b1.channelCount)
    (heq : declaredChannels (infos.take k) + ch = declaredChannels (infos.take k1) + ch1) :
    k = k1 ∧ ch = ch1 := by
  rcases Nat.lt_trichotomy k k1 with hlt | heq2 | hgt
  · have := declaredChannels_take_lt infos k k1 b hk hlt
    omega
  · subst heq2
    exact ⟨rfl, by omega⟩
  · have := declaredChannels_take_lt infos k1 k b1 hk1 hgt
    omega

theorem outputBusLoop_slot (infos : List (Option BusInfo)) (N k ch c : Nat)
    (bus : AudioBusBuffers) (ptrs : List ChannelPtr)
    (hbus : (outputBusLoop infos N).1[k]? = some bus)
    (hptrs : bus.channelBuffers32 = some ptrs)
    (h : ptrs[ch]? = some (ChannelPtr.hostOutput c)) :
    ∃ b, infos[k]? = some (some b) ∧ ch < b.channelCount ∧
      c = declaredChannels (infos.take k) + ch := by
  have hklen : k < infos.length := by
    obtain ⟨hl, _⟩ := List.getElem?_eq_some_iff.mp hbus
    rw [outputBusLoop_length] at hl
    exact hl
  have hinfo : infos[k]? = some infos[k] := List.getElem?_eq_getElem hklen
  cases hcase : infos[k] with
  | none =>
    rw [hcase] at hinfo
    rw [outputBusLoop_getElem_none infos N k hinfo] at hbus
    injection hbus with hbus
    rw [← hbus] at hptrs
    cases hptrs
  | some b =>
    rw [hcase] at hinfo
    rw [outputBusLoop_getElem_some infos N k b hinfo] at hbus
    injection hbus with hbus
    rw [← hbus] at hptrs
    injection hptrs with hptrs
    rw [← hptrs] at h
    have hch : ch < b.channelCount := by
      obtain ⟨hl, _⟩ := List.getElem?_eq_some_iff.mp h
      rw [outputChannelLoop_length] at hl
      exact hl
    rw [outputChannelLoop_getElem N _ _ ch hch, outputChannelOffsetAt_eq_declared] at h
    refine ⟨b, hinfo, hch, ?_⟩
    split at h
    · injection h with h
      injection h with h
      exact h.symm
    · injection h with h
      cases h

theorem inputBusLoop_slot (infos : List (Option BusInfo)) (N k ch c : Nat)
    (bus : AudioBusBuffers) (ptrs : List ChannelPtr)
    (hbus : (inputBusLoop infos N).1[k]? = some bus)
    (hptrs : bus.channelBuffers32 = some ptrs)
    (h : ptrs[ch]? = some (ChannelPtr.hostInput c)) :
    ∃ b, infos[k]? = some (some b) ∧ ch < b.channelCount ∧
      c = declaredChannels (infos.take k) + ch := by
  have hklen : k < infos.length := by
    obtain ⟨hl, _⟩ := List.getElem?_eq_some_iff.mp hbus
    rw [inputBusLoop_length] at hl
    exact hl
  have hinfo : infos[k]? = some infos[k] := List.getElem?_eq_getElem hklen
  have hoff : inputChannelOffsetAt infos N k = declaredChannels (infos.take k) := by
    have := inputBusLoop_offset N (infos.take k) ([], 0)
    simpa [inputChannelOffsetAt, inputBusLoop] using this
  rw [inputBusLoop_getElem infos N k _ hinfo] at hbus
  injection hbus with hbus
  cases hcase : infos[k] with
  | none =>
    rw [hcase] at hbus
    simp only [inputBusStep, List.nil_append, List.headD_cons] at hbus
    rw [← hbus] at hptrs
    cases hptrs
  | some b =>
    rw [hcase] at hbus
    simp only [inputBusStep, List.nil_append, List.headD_cons] at hbus
    rw [← hbus] at hptrs
    injection hptrs with hptrs
    rw [← hptrs, inputChannelLoop_eq_map, hoff] at h
    have hch : ch < b.channelCount := by
      obtain ⟨hl, _⟩ := List.getElem?_eq_some_iff.mp h
      simpa using hl
    refine ⟨b, by rw [hinfo, hcase], hch, ?_⟩
    simp only [List.getElem?_map, List.getElem?_range hch, Option.map_some'] at h
    split at h
    · injection h with h
      injection h with h
      exact h.symm
    · injection h with h
      cases h

/-- C16: within one direction of one call no host channel is bound to two different
(bus, channel position) pairs, and the host channels bound, traversed in ascending bus
index and channel position, are strictly increasing: they are the channels
0, 1, ... below both the host channel count and the declared channel total. -/
theorem busLoops_no_aliasing (infos : List (Option BusInfo)) (numChannels : Nat) :
    (∀ (k ch k1 ch1 c : Nat) (bus bus1 : AudioBusBuffers)
        (ptrs ptrs1 : List ChannelPtr),
      (inputBusLoop infos numChannels).1[k]? = some bus →
      bus.channelBuffers32 = some ptrs → ptrs[ch]? = some (ChannelPtr.hostInput c) →
      (inputBusLoop infos numChannels).1[k1]? = some bus1 →
      bus1.channelBuffers32 = some ptrs1 → ptrs1[ch1]? = some (ChannelPtr.hostInput c) →
      k = k1 ∧ ch = ch1) ∧
    (∀ (k ch k1 ch1 c : Nat) (bus bus1 : AudioBusBuffers)
        (ptrs ptrs1 : List ChannelPtr),
      (outputBusLoop infos numChannels).1[k]? = some bus →
      bus.channelBuffers32 = some ptrs → ptrs[ch]? = some (ChannelPtr.hostOutput c) →
      (outputBusLoop infos numChannels).1[k1]? = some bus1 →
      bus1.channelBuffers32 = some ptrs1 → ptrs1[ch1]? = some (ChannelPtr.hostOutput c) →
      k = k1 ∧ ch = ch1) ∧
    List.Pairwise (fun a b => a < b) (boundHostChannels (inputBusLoop infos numChannels).1) ∧
    List.Pairwise (fun a b => a < b) (boundHostChannels (outputBusLoop infos numChannels).1) ∧
    boundHostChannels (inputBusLoop infos numChannels).1 =
      List.range (min numChannels (declaredChannels infos)) ∧
    boundHostChannels (outputBusLoop infos numChannels).1 =
      List.range (min numChannels (declaredChannels infos)) := by
  refine ⟨?_, ?_, ?_, ?_, inputBusLoop_bound infos numChannels,
    outputBusLoop_bound infos numChannels⟩
  · intro k ch k1 ch1 c bus bus1 ptrs ptrs1 h1 h2 h3 h4 h5 h6
    obtain ⟨b, hb, hch, hc⟩ := inputBusLoop_slot infos numChannels k ch c bus ptrs h1 h2 h3
    obtain ⟨b1, hb1, hch1, hc1⟩ :=
      inputBusLoop_slot infos numChannels k1 ch1 c bus1 ptrs1 h4 h5 h6
    exact slot_unique infos k ch k1 ch1 b b1 hb hb1 hch hch1 (by omega)
  · intro k ch k1 ch1 c bus bus1 ptrs ptrs1 h1 h2 h3 h4 h5 h6
    obtain ⟨b, hb, hch, hc⟩ := outputBusLoop_slot infos numChannels k ch c bus ptrs h1 h2 h3
    obtain ⟨b1, hb1, hch1, hc1⟩ :=
      outputBusLoop_slot infos numChannels k1 ch1 c bus1 ptrs1 h4 h5 h6
    exact slot_unique infos k ch k1 ch1 b b1 hb hb1 hch hch1 (by omega)
  · rw [inputBusLoop_bound]
    exact List.pairwise_lt_range _
  · rw [outputBusLoop_bound]
    exact List.pairwise_lt_range _

end PluginVst3
